import Mathlib

/-!
Verification development for the `tk-framework-editorial` repository
(`python/edl/timecode.py` and `python/edl/edl.py`).

The Python code is shallowly embedded: Python `int` values become `ℤ` (or `ℕ`
where the source value is provably non-negative), Python `float` values become
`ℚ` (we model float arithmetic as exact rational arithmetic; all inputs
exercised here are far from any point where double rounding could change a
truncation result), Python strings become `String`, and raising an exception
becomes returning `Except PyErr`.

Python-specific numeric conventions that we model explicitly:
  * `int(x)` on a float truncates toward zero (`truncQ`),
  * `a % b` on ints or floats returns a value with the sign of `b`
    (for `b > 0` this is floor-mod, `pyFloatMod` and `Int.emod`),
  * `int(round(x))` rounds half away-from-even; none of the frame rates in
    scope sit on a tie, so we use `⌊x + 1/2⌋` (`pyRound`),
  * `str.isdigit`, `str.split`, `str.strip`, `"%02d"` formatting and
    `re.match` patterns are modelled character-by-character.
-/

namespace EDL

/-- The Python exceptions raised by the embedded code (`errors.py` plus the
built-in exception types the code can raise). -/
inductive PyErr where
  | valueError
  | typeError
  | attributeError
  | indexError
  | keyError
  | runtimeError
  | notImplementedError
  | badDropFrame
  | badFrameRate
  | badBL
  | badFCM
  deriving DecidableEq, Repr

/-! ### Python numeric semantics -/

/-- Python `int(x)` on a float/rational: truncation toward zero. -/
def truncQ (q : ℚ) : ℤ := if 0 ≤ q then ⌊q⌋ else -⌊-q⌋

/-- Python `x % m` on floats (sign of the divisor; we only use `m > 0`). -/
def pyFloatMod (a m : ℚ) : ℚ := a - m * ⌊a / m⌋

/-- Python `round(x)` (as used on the frame rates in scope, which never sit on
an exact half, so round-half-even and round-half-up agree). -/
def pyRound (q : ℚ) : ℤ := ⌊q + 1/2⌋

theorem truncQ_intCast (a : ℤ) : truncQ (a : ℚ) = a := by
  unfold truncQ
  rcases le_or_lt 0 (a : ℚ) with h | h
  · rw [if_pos h, Int.floor_intCast]
  · rw [if_neg (not_le.mpr h), ← Int.cast_neg, Int.floor_intCast, neg_neg]

theorem floor_intCast_div (a b : ℤ) (hb : 0 < b) :
    ⌊(a : ℚ) / (b : ℚ)⌋ = a / b := by
  have h := Rat.floor_intCast_div_natCast a b.toNat
  have hc : ((b.toNat : ℕ) : ℚ) = (b : ℚ) := by
    exact_mod_cast congrArg (fun z : ℤ => (z : ℚ)) (Int.toNat_of_nonneg hb.le)
  rw [hc] at h
  rwa [Int.toNat_of_nonneg hb.le] at h

theorem truncQ_intCast_div (a b : ℤ) (hb : 0 < b) :
    truncQ ((a : ℚ) / (b : ℚ)) = a.tdiv b := by
  unfold truncQ
  have hbq : (0 : ℚ) < (b : ℚ) := by exact_mod_cast hb
  rcases le_or_lt 0 a with ha | ha
  · rw [if_pos (div_nonneg (by exact_mod_cast ha) hbq.le), floor_intCast_div a b hb,
      Int.tdiv_eq_ediv ha hb.le]
  · rw [if_neg, ← neg_div, ← Int.cast_neg, floor_intCast_div (-a) b hb]
    · have h1 : a.tdiv b = -((-a).tdiv b) := by
        rw [← Int.neg_tdiv, neg_neg]
      rw [h1, Int.tdiv_eq_ediv (by omega) hb.le]
    · have : (a : ℚ) < 0 := by exact_mod_cast ha
      exact not_le.mpr (div_neg_of_neg_of_pos this hbq)

theorem pyFloatMod_intCast (a m : ℤ) (hm : 0 < m) :
    pyFloatMod (a : ℚ) (m : ℚ) = ((a % m : ℤ) : ℚ) := by
  unfold pyFloatMod
  rw [floor_intCast_div a m hm]
  have h : a % m = a - m * (a / m) := by
    have := Int.emod_add_ediv a m
    omega
  rw [h]
  push_cast
  ring

/-! ### Characters, digits and string rendering -/

/-- The value of an ASCII digit character (Python `int` on a digit). -/
def digitVal (c : Char) : ℕ := c.toNat - 48

/-- Decimal digits of `n`, most significant first (fuel-indexed so that it is
structurally recursive and kernel-reducible). -/
def natDigitsAux : ℕ → ℕ → List Char
  | 0, _ => []
  | fuel + 1, n =>
      if n < 10 then [Nat.digitChar n]
      else natDigitsAux fuel (n / 10) ++ [Nat.digitChar (n % 10)]

/-- Python `str(n)` for `n : ℕ`. -/
def natStr (n : ℕ) : List Char := natDigitsAux (n + 1) n

/-- Python `str(i)` for `i : ℤ`. -/
def intStr (i : ℤ) : List Char :=
  if i < 0 then '-' :: natStr i.natAbs else natStr i.toNat

/-- Python `"%02d" % i`: pad with a leading zero to width two. -/
def pad2 (i : ℤ) : List Char :=
  let s := intStr i
  if s.length < 2 then '0' :: s else s

/-- Python `str.isdigit` (non-empty and every character a decimal digit). -/
def pyIsDigitStr (s : String) : Bool :=
  !s.data.isEmpty && s.data.all Char.isDigit

/-- Python `int(s)` on a string of decimal digits. -/
def strToNat (s : String) : ℕ :=
  s.data.foldl (fun acc c => 10 * acc + digitVal c) 0

theorem natStr_lt10 (n : ℕ) (h : n < 10) : natStr n = [Nat.digitChar n] := by
  unfold natStr natDigitsAux
  rw [if_pos h]

theorem natStr_lt100 (n : ℕ) (h10 : 10 ≤ n) (h : n < 100) :
    natStr n = [Nat.digitChar (n / 10), Nat.digitChar (n % 10)] := by
  unfold natStr natDigitsAux
  rw [if_neg (by omega)]
  have hd : n / 10 < 10 := by omega
  have : natDigitsAux n (n / 10) = [Nat.digitChar (n / 10)] := by
    match n, h10 with
    | (m + 10), _ =>
      unfold natDigitsAux
      rw [if_pos hd]
  rw [this]
  rfl

/-- `"%02d"` of `0 ≤ i < 100` is the two-digit decimal rendering. -/
theorem pad2_eq (i : ℤ) (h0 : 0 ≤ i) (h : i < 100) :
    pad2 i = [Nat.digitChar (i.toNat / 10), Nat.digitChar (i.toNat % 10)] := by
  have hi : intStr i = natStr i.toNat := by
    unfold intStr
    rw [if_neg (by omega)]
  unfold pad2
  rw [hi]
  rcases lt_or_le i.toNat 10 with h10 | h10
  · have h1 : i.toNat / 10 = 0 := by omega
    have h2 : i.toNat % 10 = i.toNat := by omega
    rw [natStr_lt10 _ h10, h1, h2]
    simp [Nat.digitChar]
  · rw [natStr_lt100 _ h10 (by omega)]
    simp

/-! ### `timecode.py`: module-level constants -/

/-- `VALID_DROP_FRAME_FPS = [29.97, 59.94]` (dictionary keys of `DROP_FRAME`). -/
def VALID_DROP_FRAME_FPS : List ℚ := [2997/100, 5994/100]

/-- `DROP_FRAME[fps]["count"]`.  The final `0` branch corresponds to the
`KeyError` Python would raise on a rate outside the table; every call site in
the source is guarded by a `VALID_DROP_FRAME_FPS` membership test before the
lookup can be reached with drop frame enabled. -/
def DROP_FRAME_count (fps : ℚ) : ℕ :=
  if fps = 2997/100 then 2 else if fps = 5994/100 then 4 else 0

/-- `DROP_FRAME[fps]["fps_int"]` (same remark as `DROP_FRAME_count`). -/
def DROP_FRAME_fps_int (fps : ℚ) : ℤ :=
  if fps = 2997/100 then 30 else if fps = 5994/100 then 60 else 0

/-- `DROP_FRAME[fps]["fp10m"]` (same remark as `DROP_FRAME_count`). -/
def DROP_FRAME_fp10m (fps : ℚ) : ℤ :=
  if fps = 2997/100 then 17982 else if fps = 5994/100 then 35964 else 0

/-- `VALID_DROP_FRAME_DELIMITERS = [";", ",", "."]`. -/
def VALID_DROP_FRAME_DELIMITERS : List Char := [';', ',', '.']

/-- The character class that `str_is_drop_frame`'s regular expression actually
matches before the trailing two digits.  The pattern is built with
`".*(%s)\d{2}$" % VALID_TIMECODE_DELIMITERS`, which interpolates the *list
repr* `[';', ',', '.', ':']`; inside `(...)` the square brackets become a
character class whose members are `;`, `,`, `.`, `:`, the apostrophe and the
space character. -/
def DELIMITER_REGEX_CLASS : List Char := [';', ',', '.', ':', '\'', ' ']

/-! ### `timecode.py`: parsing helpers -/

/-- Tail of `Timecode.parse_timecode`'s regular expression after the hours
group: `:(\d{2}):(\d{2})[:;.,](\d{2})` followed by anything (`re.match` does
not anchor the end of the string). -/
def parse_timecode_tail (hrs : ℕ) (cs : List Char) : Option (ℕ × ℕ × ℕ × ℕ) :=
  match cs with
  | c1 :: m1 :: m2 :: c2 :: s1 :: s2 :: d :: f1 :: f2 :: _ =>
      if c1 == ':' && m1.isDigit && m2.isDigit && c2 == ':' && s1.isDigit && s2.isDigit &&
          (d == ':' || d == ';' || d == '.' || d == ',') && f1.isDigit && f2.isDigit then
        some (hrs, 10 * digitVal m1 + digitVal m2, 10 * digitVal s1 + digitVal s2,
          10 * digitVal f1 + digitVal f2)
      else none
  | _ => none

/-- `Timecode.parse_timecode`: `re.match(r"(\d{2,3}):(\d{2}):(\d{2})[:;\.,](\d{2})", s)`.
The greedy `\d{2,3}` takes a third digit exactly when one is present (the
two-digit alternative would then need `:` where that digit stands, so there is
no backtracking ambiguity).  On failure Python raises `ValueError`. -/
def parse_timecode (s : String) : Except PyErr (ℕ × ℕ × ℕ × ℕ) :=
  match s.data with
  | h1 :: h2 :: rest =>
      if h1.isDigit && h2.isDigit then
        match rest with
        | h3 :: rest2 =>
            if h3.isDigit then
              match parse_timecode_tail
                  (100 * digitVal h1 + 10 * digitVal h2 + digitVal h3) rest2 with
              | some t => .ok t
              | none => .error .valueError
            else
              match parse_timecode_tail (10 * digitVal h1 + digitVal h2) rest with
              | some t => .ok t
              | none => .error .valueError
        | [] => .error .valueError
      else .error .valueError
  | _ => .error .valueError

/-- `Timecode.str_is_drop_frame`: `re.match(".*(<class>)\d{2}$", s)`.  The
string must end in a class character followed by exactly two digits, with `.`
matching every earlier character (hence no newline; no input in scope contains
one).  The delimiter indicates drop frame iff it is in
`VALID_DROP_FRAME_DELIMITERS`. -/
def str_is_drop_frame (s : String) : Except PyErr Bool :=
  match s.data.reverse with
  | f2 :: f1 :: d :: rest =>
      if f2.isDigit && f1.isDigit && DELIMITER_REGEX_CLASS.contains d &&
          rest.all (fun c => c != '\n') then
        .ok (VALID_DROP_FRAME_DELIMITERS.contains d)
      else .error .valueError
  | _ => .error .valueError

/-- `_compute_drop_frame_setting(timecode_str, drop_frame)`. -/
def compute_drop_frame_setting (timecode_str : String) (drop_frame : Option Bool) :
    Except PyErr Bool := do
  let tc_drop_frame ← str_is_drop_frame timecode_str
  match drop_frame with
  | none => .ok tc_drop_frame
  | some false => if tc_drop_frame then .error .badDropFrame else .ok false
  | some true => .ok true

/-! ### `timecode.py`: frame/timecode conversions -/

/-- Core arithmetic of `frame_from_timecode` once hours/minutes/seconds/frames
and the effective drop-frame flag are known (shared by the string and the
tuple entry points).  All quantities are Python ints here. -/
def frame_from_timecode_core (h m s fr : ℕ) (fps : ℚ) (tc_drop_frame : Bool) : ℤ :=
  let drop_frames_per_min : ℕ := if tc_drop_frame then DROP_FRAME_count fps else 0
  let fps_int : ℤ := pyRound fps
  let total_minutes : ℕ := 60 * h + m
  let frame_number : ℤ :=
    fps_int * 3600 * h + fps_int * 60 * m + fps_int * s + fr
  let frames_to_drop : ℤ := drop_frames_per_min * (total_minutes - total_minutes / 10 : ℕ)
  frame_number - frames_to_drop

/-- `frame_from_timecode` on a string argument. -/
def frame_from_timecode (timecode : String) (fps : ℚ) (drop_frame : Option Bool) :
    Except PyErr ℤ := do
  let (h, m, s, fr) ← parse_timecode timecode
  let tc_drop_frame ← compute_drop_frame_setting timecode drop_frame
  if tc_drop_frame ∧ fps ∉ VALID_DROP_FRAME_FPS then
    .error .notImplementedError
  else
    .ok (frame_from_timecode_core h m s fr fps tc_drop_frame)

/-- `frame_from_timecode` on a `(hours, minutes, seconds, frames)` tuple: the
drop-frame flag is taken from the parameter alone (a falsy `None` becomes
`False`). -/
def frame_from_timecode_tuple (h m s fr : ℕ) (fps : ℚ) (drop_frame : Option Bool) : ℤ :=
  frame_from_timecode_core h m s fr fps (drop_frame == some true)

/-- The drop-frame compensation of `timecode_from_frame` (lines 210-223 of
`timecode.py`): number of skipped frame labels to add back before splitting
into fields.  `fpm_drop` is `frames_per_min_drop = fps_int*60 - count`. -/
def py_df_add_frames (frame_number : ℚ) (dpm fp10m fpm_drop : ℤ) : ℤ :=
  let ten_minute_chunks : ℤ := truncQ (frame_number / fp10m)
  let remaining_frames : ℚ := pyFloatMod frame_number fp10m
  if remaining_frames > (dpm : ℚ) then
    dpm * 9 * ten_minute_chunks +
      dpm * truncQ ((remaining_frames - dpm) / fpm_drop)
  else
    dpm * 9 * ten_minute_chunks

/-- The field split of `timecode_from_frame` (lines 239-242 of `timecode.py`):
`int(g / (3600*fps_int))`, `int(g / (60*fps_int) % 60)`, `int(g / fps_int % 60)`
and `int(g % fps_int)`. -/
def py_tc_fields (g : ℚ) (fps_int : ℤ) : ℤ × ℤ × ℤ × ℤ :=
  (truncQ (g / (3600 * fps_int)),
   truncQ (pyFloatMod (g / (60 * fps_int)) 60),
   truncQ (pyFloatMod (g / fps_int) 60),
   truncQ (pyFloatMod g fps_int))

/-- `timecode_from_frame(frame_number, fps, drop_frame)`.  `frame_number` is a
rational because the retime fix-up calls this with a Python float. -/
def timecode_from_frame (frame_number : ℚ) (fps : ℚ) (drop_frame : Bool) :
    Except PyErr String :=
  if drop_frame ∧ fps ∉ VALID_DROP_FRAME_FPS then
    .error .notImplementedError
  else
    let fps_int : ℤ := if drop_frame then DROP_FRAME_fps_int fps else pyRound fps
    let g : ℚ :=
      if drop_frame then
        frame_number + py_df_add_frames frame_number (DROP_FRAME_count fps)
          (DROP_FRAME_fp10m fps) (fps_int * 60 - DROP_FRAME_count fps)
      else frame_number
    let frames_token : Char := if drop_frame then ';' else ':'
    let (hours, minutes, seconds, frames) := py_tc_fields g fps_int
    .ok ⟨pad2 hours ++ ':' :: pad2 minutes ++ ':' :: pad2 seconds ++
      frames_token :: pad2 frames⟩

/-! ### `timecode.py`: the `Timecode` class -/

/-- The `Timecode` object: the fields set by `__init__`.  `_drop_frame` keeps
the Python value, which on the frame-number construction path can be the raw
`None`/`True`/`False` argument and on the string path is always a proper
boolean; Python truthiness of this field is `_drop_frame == some true`. -/
structure Timecode where
  _hours : ℕ
  _minutes : ℕ
  _seconds : ℕ
  _frames : ℕ
  _fps : ℚ
  _drop_frame : Option Bool
  deriving DecidableEq, Repr

/-- `Timecode.__init__` (with `_validate_values`).  Mirrors the two
construction paths: an all-digits string is a frame number and is first
rendered through `timecode_from_frame`; anything else is parsed as a timecode
string and the drop-frame setting is reconciled with the delimiter. -/
def Timecode.make (timecode_string : String) (fps : ℚ := 24)
    (drop_frame : Option Bool := none) (source : Bool := false) :
    Except PyErr Timecode := do
  let (h, m, s, fr, df) ←
    if pyIsDigitStr timecode_string then do
      let new_timecode_string ←
        timecode_from_frame (strToNat timecode_string) fps (drop_frame == some true)
      let (h, m, s, fr) ← parse_timecode new_timecode_string
      pure (h, m, s, fr, drop_frame)
    else do
      let (h, m, s, fr) ← parse_timecode timecode_string
      let d ← compute_drop_frame_setting timecode_string drop_frame
      pure (h, m, s, fr, some d)
  if df == some true ∧ fps ∉ VALID_DROP_FRAME_FPS then
    .error .notImplementedError
  else if m > 59 then
    .error .valueError
  else if s > 59 then
    .error .valueError
  else if ¬source ∧ (fr : ℚ) ≥ fps then
    .error .badFrameRate
  else
    .ok ⟨h, m, s, fr, fps, df⟩

/-- `Timecode.to_frame`. -/
def Timecode.to_frame (t : Timecode) : ℤ :=
  frame_from_timecode_tuple t._hours t._minutes t._seconds t._frames t._fps t._drop_frame

/-- `Timecode.from_frame` (classmethod).  The frame argument is rational
because the retime fix-up passes a Python float. -/
def Timecode.from_frame (frame : ℚ) (fps : ℚ) (drop_frame : Option Bool) :
    Except PyErr Timecode := do
  let timecode ← timecode_from_frame frame fps (drop_frame == some true)
  Timecode.make timecode fps drop_frame false

/-- `Timecode.__sub__` with an `int` right operand. -/
def Timecode.sub_int (t : Timecode) (right : ℤ) : Except PyErr Timecode :=
  Timecode.from_frame ((t.to_frame - right : ℤ) : ℚ) t._fps t._drop_frame

/-- `Timecode.__add__` with an `int` right operand. -/
def Timecode.add_int (t : Timecode) (right : ℤ) : Except PyErr Timecode :=
  Timecode.from_frame ((t.to_frame + right : ℤ) : ℚ) t._fps t._drop_frame

/-- `Timecode.__str__`. -/
def Timecode.str (t : Timecode) : String :=
  ⟨pad2 t._hours ++ ':' :: pad2 t._minutes ++ ':' :: pad2 t._seconds ++
    (if t._drop_frame == some true then ';' else ':') :: pad2 t._frames⟩

/-! ### `decimal.Decimal` division (for `to_seconds`)

`to_seconds` computes `decimal.Decimal(frame) / self._fps`.  A `Decimal` can
be divided by a Python `int` (the int is coerced), with the default context:
28 significant digits, `ROUND_HALF_EVEN`.  Dividing a `Decimal` by a `float`
is a `TypeError`.  The model below follows `_pydecimal.Decimal.__truediv__`
(and `_fix`) for non-negative integer operands. -/

/-- Number of decimal digits of `n` (at least 1, like Python's `len(str(n))`). -/
def numDigits (n : ℕ) : ℕ := (natStr n).length

/-- `_pydecimal._fix`: round a coefficient to `prec` significant digits with
`ROUND_HALF_EVEN`, producing the rational value `coeff * 10^exp` afterwards. -/
def decRound (coeff : ℕ) (exp : ℤ) (prec : ℕ) : ℚ :=
  if numDigits coeff ≤ prec then (coeff : ℚ) * (10 : ℚ) ^ exp
  else
    let drop := numDigits coeff - prec
    let q := coeff / 10 ^ drop
    let r := coeff % 10 ^ drop
    let q2 := if 2 * r > 10 ^ drop ∨ (2 * r = 10 ^ drop ∧ q % 2 = 1) then q + 1 else q
    if q2 = 10 ^ prec then ((10 : ℚ) ^ (prec - 1)) * (10 : ℚ) ^ (exp + drop + 1)
    else (q2 : ℚ) * (10 : ℚ) ^ (exp + drop)

/-- The exact-quotient exponent reduction of `_pydecimal.__truediv__` (shrink
toward the ideal exponent 0 while the coefficient has trailing zeros). -/
def decReduce : ℕ → ℕ → ℤ → ℕ × ℤ
  | 0, c, e => (c, e)
  | fuel + 1, c, e =>
      if e < 0 ∧ c % 10 = 0 then decReduce fuel (c / 10) (e + 1) else (c, e)

/-- `Decimal(a) / Decimal(b)` for `a b : ℕ`, `b ≠ 0`, default context. -/
def decimal_div (a b : ℕ) : ℚ :=
  if a = 0 then 0
  else
    let prec : ℕ := 28
    let shift : ℤ := (numDigits b : ℤ) - numDigits a + prec + 1
    let divisor := if 0 ≤ shift then b else b * 10 ^ (-shift).toNat
    let dividend := if 0 ≤ shift then a * 10 ^ shift.toNat else a
    let coeff := dividend / divisor
    let rem := dividend % divisor
    let exp : ℤ := -shift
    if rem ≠ 0 then
      decRound (if coeff % 5 = 0 then coeff + 1 else coeff) exp prec
    else
      let (c2, e2) := decReduce shift.toNat coeff exp
      decRound c2 e2 prec

/-- `Timecode.to_seconds`.  `Decimal(frame) / fps` succeeds when `fps` is a
Python `int` (modelled as `den = 1`; the repository's integer rates are ints,
its fractional rates floats) and raises `TypeError` when `fps` is a `float`,
which no arithmetic operator mixes with `Decimal`. -/
def Timecode.to_seconds (t : Timecode) : Except PyErr ℚ :=
  if t._fps.den = 1 then
    .ok (if t.to_frame < 0 then -decimal_div t.to_frame.natAbs t._fps.num.toNat
         else decimal_div t.to_frame.toNat t._fps.num.toNat)
  else .error .typeError

/-! ### `edl.py`: the `EditEvent` class -/

/-- A value stored in an event's ad hoc metadata dictionary (Python allows any
object; the claims only exercise plain scalars, strings and `None`). -/
inductive MetaVal where
  | mstr (s : String)
  | mint (z : ℤ)
  | mrat (q : ℚ)
  | mbool (b : Bool)
  | mnone
  deriving DecidableEq, Repr

/-- The metadata value `__init__` stores under `"_drop_frame"` (the raw
`None`/`True`/`False` argument). -/
def metaOfDropFrame : Option Bool → MetaVal
  | none => .mnone
  | some b => .mbool b

/-- The `retime` dictionary built by `EditEvent.add_retime`. -/
structure Retime where
  tokens : List String
  source_in : Timecode
  speed : String
  comment : String
  deriving DecidableEq, Repr

/-- An `EditEvent`.  In the source, `_fps` and `_drop_frame` are missing from
the `__mine` list, so `__init__`'s writes to them fall through `__setattr__`
into `_meta_data["_fps"]` / `_meta_data["_drop_frame"]`, and every later read
of `self._fps` / `self._drop_frame` goes through `__getattr__` to those
dictionary entries — the dictionary is the real storage.  The embedding keeps
the entries in `_meta_data` (written by `EditEvent.make`) and additionally
carries the typed fields `_fps` / `_drop_frame` as mirrors of those two
entries; every modelled write updates both (`EditEvent.make`, and
`EditEvent.setattr_meta` on the keys `"_fps"` / `"_drop_frame"`), so the
mirror always equals the entry the Python reads consult. -/
structure EditEvent where
  _effects : List String
  _comments : List String
  _meta_data : List (String × MetaVal)
  _retime : Option Retime
  _fps : ℚ
  _drop_frame : Option Bool
  _id : ℤ
  _reel : String
  _channels : String
  _source_in : Timecode
  _source_out : Timecode
  _record_in : Timecode
  _record_out : Timecode
  deriving DecidableEq, Repr

/-- `EditEvent.__init__`: the source in/out timecodes are constructed with
`source=True` (frame overflow tolerated), the record ones without.  The
assignments to `self._fps` and then `self._drop_frame` fall through
`__setattr__` into `_meta_data` (so the later write sits at the head of the
association list). -/
def EditEvent.make (id : ℤ) (reel channels : String)
    (source_in source_out record_in record_out : String) (fps : ℚ)
    (drop_frame : Option Bool) : Except PyErr EditEvent := do
  let si ← Timecode.make source_in fps drop_frame true
  let so ← Timecode.make source_out fps drop_frame true
  let ri ← Timecode.make record_in fps drop_frame false
  let ro ← Timecode.make record_out fps drop_frame false
  .ok ⟨[], [], [("_drop_frame", metaOfDropFrame drop_frame), ("_fps", .mrat fps)],
    none, fps, drop_frame, id, reel, channels, si, so, ri, ro⟩

/-- `record_duration` property (`out` is exclusive). -/
def EditEvent.record_duration (e : EditEvent) : ℤ :=
  e._record_out.to_frame - e._record_in.to_frame

/-- `source_duration` property. -/
def EditEvent.source_duration (e : EditEvent) : ℤ :=
  e._source_out.to_frame - e._source_in.to_frame

/-- `EditEvent.__protected`: accessor names that `__setattr__` refuses. -/
def PROTECTED : List String :=
  ["effects", "comments", "meta_data", "retime", "id", "reel", "channels",
   "source_in", "source_out", "record_in", "record_out"]

/-- `EditEvent.__mine`: the underscored slot names that `__setattr__` writes
with `object.__setattr__`. -/
def MINE : List String :=
  ["_effects", "_comments", "_meta_data", "_retime", "_id", "_reel", "_channels",
   "_source_in", "_source_out", "_record_in", "_record_out"]

/-- `EditEvent.__setattr__` for a metadata-typed value.  Names in `__mine`
make Python write the raw object slot; the embedding performs those internal
slot writes as record updates at the call sites that do them (`__init__`,
`add_retime`, the transition fix-up), and no modelled call site ever routes a
metadata value to a slot, so that arm is marked with a distinguished error.
The keys `"_fps"` and `"_drop_frame"` are ordinary metadata in Python but are
the storage behind every fps/drop-frame read, so a write to them also updates
the embedding's mirror fields; a write of a value outside the type the rest
of the program expects there (a non-number fps, a non-boolean drop-frame)
would only fail later, at the first arithmetic read — no modelled call site
performs one, and that arm carries the same distinguished error. -/
def EditEvent.setattr_meta (e : EditEvent) (name : String) (v : MetaVal) :
    Except PyErr EditEvent :=
  if name ∈ PROTECTED then .error .attributeError
  else if name ∈ MINE then .error .typeError
  else
    let e2 : EditEvent := { e with _meta_data := (name, v) :: e._meta_data }
    if name = "_fps" then
      match v with
      | .mrat q => .ok { e2 with _fps := q }
      | _ => .error .typeError
    else if name = "_drop_frame" then
      match v with
      | .mbool b => .ok { e2 with _drop_frame := some b }
      | .mnone => .ok { e2 with _drop_frame := none }
      | _ => .error .typeError
    else .ok e2

/-- `EditEvent.__getattr__` exactly: look the name up in `_meta_data`, else
`AttributeError`.  Python only invokes `__getattr__` after normal lookup
fails, so this models attribute *access* only for names that reach it — see
`attr_reaches_getattr`. -/
def EditEvent.getattr_meta (e : EditEvent) (name : String) : Except PyErr MetaVal :=
  match e._meta_data.lookup name with
  | some v => .ok v
  | none => .error .attributeError

/-- The names defined on the `EditEvent` *class*: properties, methods, the
name-mangled class variables and the dunder methods it defines.  On attribute
access these take precedence over `__getattr__`, so a metadata entry stored
under one of them is shadowed and never returned by attribute access. -/
def EDIT_EVENT_CLASS_ATTRS : List String :=
  ["fps", "drop_frame", "channels", "id", "reel", "comments", "pure_comments",
   "timecodes", "source_in", "source_out", "source_duration", "record_in",
   "record_out", "record_duration", "has_effects", "has_retime",
   "retime_comment", "add_effect", "add_comments", "add_retime",
   "_EditEvent__mine", "_EditEvent__protected",
   "__init__", "__setattr__", "__getattr__", "__str__"]

/-- Whether attribute access on `name` reaches `__getattr__` (and hence the
metadata dictionary): Python resolves class attributes (properties, methods)
and instance slots (the `__mine` names, set with `object.__setattr__`) first,
and calls `__getattr__` only when all of those fail.  Attributes inherited
from `object` also shadow, but they all start with an underscore, so on
names without a leading underscore this list is exhaustive. -/
def attr_reaches_getattr (name : String) : Bool :=
  !EDIT_EVENT_CLASS_ATTRS.contains name && !MINE.contains name

/-- Whether a name starts with `'_'` (used to carve out the private
namespace: every slot, mangled class variable, dunder and the two stray
metadata keys `"_fps"`/`"_drop_frame"` start with one). -/
def startsWithUnderscore (s : String) : Bool :=
  match s.data with
  | c :: _ => c == '_'
  | [] => false

/-- `EditEvent.add_effect`: the token list is joined with single spaces and
appended. -/
def joinSpaces : List String → String
  | [] => ""
  | [x] => x
  | x :: xs => x ++ " " ++ joinSpaces xs

def EditEvent.add_effect (e : EditEvent) (tokens : List String) : EditEvent :=
  { e with _effects := e._effects ++ [joinSpaces tokens] }

/-- `EditEvent.add_comments`. -/
def EditEvent.add_comments (e : EditEvent) (comment : String) : EditEvent :=
  { e with _comments := e._comments ++ [comment] }

/-! ### Python list indexing and `float()` -/

/-- `l[i]` for `i ≥ 0` (raises `IndexError` when out of range). -/
def pyIndex (l : List α) (i : ℕ) : Except PyErr α :=
  match l.get? i with
  | some x => .ok x
  | none => .error .indexError

/-- `l[-i]` for `i ≥ 1`. -/
def pyIndexNeg (l : List α) (i : ℕ) : Except PyErr α :=
  if i ≤ l.length then pyIndex l (l.length - i) else .error .indexError

/-- Value of a list of decimal digits. -/
def digitsVal (l : List Char) : ℕ := l.foldl (fun a c => 10 * a + digitVal c) 0

/-- Python `float(s)` for the plain decimal forms that appear in EDL retime
lines: optional sign, digits, at most one decimal point (no exponents or
whitespace, which never occur in the tokens in scope).  The result is the
exact rational; see the module comment about modelling floats as rationals. -/
def pyFloatQ (s : String) : Except PyErr ℚ :=
  let (neg, cs) : Bool × List Char :=
    match s.data with
    | '-' :: r => (true, r)
    | '+' :: r => (false, r)
    | r => (false, r)
  let rest := cs.filter (fun c => c ≠ '.')
  if (cs.countP (fun c => c = '.')) ≤ 1 ∧ rest ≠ [] ∧ rest.all Char.isDigit then
    let fracLen := (cs.dropWhile (fun c => c ≠ '.')).length - 1
    let v : ℚ := (digitsVal rest : ℚ) / (10 : ℚ) ^ fracLen
    .ok (if neg then -v else v)
  else .error .valueError

/-- `EditEvent.add_retime` with `_FIXUP_SOURCE = True`: classify the retime,
record it, and for reverse motion re-derive the event's source-in. -/
def EditEvent.add_retime (e : EditEvent) (tokens : List String) :
    Except PyErr EditEvent := do
  let t3 ← pyIndex tokens 3
  let rt_source_in ← Timecode.make t3 e._fps e._drop_frame true
  let t2 ← pyIndex tokens 2
  let record_duration : ℤ := e._record_out.to_frame - e._record_in.to_frame
  let speed ← pyFloatQ t2
  let comment : String :=
    if |speed| < 1/10000 then
      "Freeze Frame (duration " ++ ⟨intStr record_duration⟩ ++ ")"
    else if speed < 0 then
      "Reverse motion (" ++ t2 ++ " fps , record dur " ++ ⟨intStr record_duration⟩ ++ ")"
    else
      "Slow motion (" ++ t2 ++ " fps , record dur " ++ ⟨intStr record_duration⟩ ++ ")"
  let duration : ℤ := e._record_out.to_frame - e._record_in.to_frame
  let source_duration : ℚ := speed / e._fps * duration
  if source_duration < 0 then
    let sri : ℚ := rt_source_in.to_frame + source_duration
    let comment2 : String :=
      if sri < 0 then
        comment ++ " Warn: source is " ++ ⟨intStr (truncQ |sri|)⟩ ++ " frames short!"
      else comment
    let sri2 : ℚ := if sri < 0 then 0 else sri
    let new_si ← Timecode.from_frame (sri2 + 1) e._fps e._drop_frame
    .ok { e with
      _retime := some ⟨tokens, rt_source_in, t2, comment2⟩
      _source_in := new_si }
  else
    .ok { e with _retime := some ⟨tokens, rt_source_in, t2, comment⟩ }

/-! ### `edl.py`: `EditList.read_cmx_edl`

The file is modelled as the list of its physical lines (universal-newline
mode, line terminators already removed). -/

/-- Python whitespace (`str.split()` with no argument splits on runs of
these). -/
def isPySpace (c : Char) : Bool :=
  c == ' ' || c == '\t' || c == '\n' || c == '\r' || c == '\x0b' || c == '\x0c'

/-- `line.strip(" \n")`. -/
def pyStripSpNl (s : String) : String :=
  ⟨((s.data.dropWhile (fun c => c == ' ' || c == '\n')).reverse.dropWhile
      (fun c => c == ' ' || c == '\n')).reverse⟩

/-- `line.replace("\x1a", "").strip(" \n")`. -/
def cleanLine (raw : String) : String :=
  pyStripSpNl ⟨raw.data.filter (fun c => c != '\x1a')⟩

/-- `s.startswith(pre)` as a structural character-list test. -/
def strHasPrefix : List Char → List Char → Bool
  | _, [] => true
  | [], _ :: _ => false
  | a :: as, b :: bs => a == b && strHasPrefix as bs

def pyStartsWith (s pre : String) : Bool := strHasPrefix s.data pre.data

/-- `str.split()`: split on whitespace runs, dropping empty pieces. -/
def pySplitAux : List Char → List Char → List String
  | [], acc => if acc = [] then [] else [⟨acc.reverse⟩]
  | c :: rest, acc =>
    if isPySpace c then
      if acc = [] then pySplitAux rest []
      else ⟨acc.reverse⟩ :: pySplitAux rest []
    else pySplitAux rest (c :: acc)

def pySplit (s : String) : List String := pySplitAux s.data []

/-- State of the first-pass loop of `read_cmx_edl`.  The loop variable `edit`
always refers to the most recently appended element of `self._edits` (it is
only (re)bound at the append), so the current edit is modelled as the list's
last element and in-place mutations of it write back to that position. -/
structure EditListState where
  _title : Option String
  _edits : List EditEvent
  id_offset : ℕ
  _drop_frame : Option Bool
  deriving DecidableEq, Repr

/-- The `FCM:` branch of the first-pass loop. -/
def processFCM (st : EditListState) (line_tokens : List String) :
    Except PyErr EditListState := do
  let t1 ← pyIndex line_tokens 1
  let drop_frame ←
    if t1 = "DROP" then do
      let t2 ← pyIndex line_tokens 2
      if t2 = "FRAME" then pure true else .error .badFCM
    else if t1 = "NON-DROP" then do
      let t2 ← pyIndex line_tokens 2
      if t2 = "FRAME" then pure false else .error .badFCM
    else .error .badFCM
  .ok (if st._drop_frame = none then
    { st with _drop_frame := some drop_frame } else st)

/-- The `C`-cut construction of the numeric-row branch: tokens at the end of
the line are taken with negative indexes. -/
def mkCut (fps : ℚ) (st : EditListState) (line_tokens : List String) (id : ℤ)
    (media_type : String) : Except PyErr EditListState := do
  let reel ← pyIndex line_tokens 1
  let si ← pyIndexNeg line_tokens 4
  let so ← pyIndexNeg line_tokens 3
  let ri ← pyIndexNeg line_tokens 2
  let ro ← pyIndexNeg line_tokens 1
  let edit ← EditEvent.make id reel media_type si so ri ro fps st._drop_frame
  .ok { st with _edits := st._edits ++ [edit] }

/-- The numeric-row branch of the first-pass loop (`line_tokens[0].isdigit()`):
audio rows bump the id offset, duplicated ids become effects, `C` rows become
new edits, anything else is an effect on the current edit. -/
def processDigitRow (fps : ℚ) (st : EditListState) (line_tokens : List String)
    (t0 : String) : Except PyErr EditListState := do
  let media_type ← pyIndex line_tokens 2
  let _event_type ← pyIndex line_tokens 3
  if media_type = "AA" then
    .ok { st with id_offset := st.id_offset + 1 }
  else
    let id : ℤ := (strToNat t0 : ℤ) - st.id_offset
    let notDup : Except PyErr EditListState :=
      if _event_type = "C" ∧ media_type ≠ "AA" then
        mkCut fps st line_tokens id media_type
      else
        match st._edits.getLast? with
        | none => .error .runtimeError
        | some edit =>
          .ok { st with
            _edits := st._edits.dropLast ++ [edit.add_effect line_tokens] }
    match st._edits.getLast? with
    | some edit =>
      if edit._id = id then
        .ok { st with
          _edits := st._edits.dropLast ++ [edit.add_effect line_tokens] }
      else notDup
    | none => notDup

/-- One iteration of the first-pass loop: clean the line, dispatch on
`TITLE:` / `FCM:` / `BL` / `M2` / event rows / comments. -/
def processLine (fps : ℚ) (st : EditListState) (raw : String) :
    Except PyErr EditListState :=
  if cleanLine raw = "" then .ok st
  else
    let line_tokens := pySplit (cleanLine raw)
    if pyStartsWith (cleanLine raw) "TITLE:" then
      .ok (if line_tokens.length > 1 then
        { st with _title := some (joinSpaces line_tokens.tail) } else st)
    else if pyStartsWith (cleanLine raw) "FCM:" then
      processFCM st line_tokens
    else if line_tokens.get? 1 = some "BL" then .error .badBL
    else do
      let t0 ← pyIndex line_tokens 0
      if t0 = "M2" then
        match st._edits.getLast? with
        | none => .error .runtimeError
        | some edit => do
          let edit2 ← edit.add_retime line_tokens
          .ok { st with _edits := st._edits.dropLast ++ [edit2] }
      else if pyIsDigitStr t0 then
        processDigitRow fps st line_tokens t0
      else
        match st._edits.getLast? with
        | some edit =>
          .ok { st with
            _edits := st._edits.dropLast ++ [edit.add_comments (cleanLine raw)] }
        | none => .ok st

/-- The first-pass loop over all lines. -/
def parseLines (fps : ℚ) : EditListState → List String → Except PyErr EditListState
  | st, [] => .ok st
  | st, l :: ls => do
    let st2 ← processLine fps st l
    parseLines fps st2 ls

/-- `re.match(r'[Dd].*|[wW].*', s)`: the string starts with `D`, `d`, `w` or
`W`. -/
def dwMatch (s : String) : Bool :=
  match s.data with
  | c :: _ => c == 'D' || c == 'd' || c == 'w' || c == 'W'
  | [] => false

/-- Second pass, one effect of the current edit.  `prev` is the already
processed previous element of `_edits` (absent for the first edit), `ht` the
running `_has_transitions` flag; the returned triple is their updated values
plus the updated current edit. -/
def fixupEffect (listDrop : Option Bool) (prev : Option EditEvent)
    (edit : EditEvent) (eff : String) (ht : Bool) :
    Except PyErr (Option EditEvent × EditEvent × Bool) := do
  let effect_tokens := pySplit eff
  let t3 ← pyIndex effect_tokens 3
  if dwMatch t3 then do
    let prev2 ←
      match prev with
      | some p =>
        if t3 = "D" then do
          let t4 ← pyIndex effect_tokens 4
          let tdTc ← Timecode.make t4 edit._fps listDrop false
          let trans_duration := tdTc.to_frame
          let nso ← Timecode.make ⟨intStr (p._source_out.to_frame + trans_duration)⟩
            p._fps listDrop true
          let nro ← Timecode.make ⟨intStr (p._record_out.to_frame + trans_duration)⟩
            p._fps listDrop false
          pure (some { p with
            _source_out := nso
            _record_out := nro })
        else pure prev
      | none => pure prev
    let t5 ← pyIndex effect_tokens 5
    let t6 ← pyIndex effect_tokens 6
    let t7 ← pyIndex effect_tokens 7
    let t8 ← pyIndex effect_tokens 8
    let nsi ← Timecode.make t5 edit._fps listDrop false
    let nso ← Timecode.make t6 edit._fps listDrop false
    let nri ← Timecode.make t7 edit._fps listDrop false
    let nro ← Timecode.make t8 edit._fps listDrop false
    .ok (prev2, { edit with
      _source_in := nsi
      _source_out := nso
      _record_in := nri
      _record_out := nro }, true)
  else .ok (prev, edit, ht)

/-- Second pass, all effects of one edit. -/
def fixupEffects (listDrop : Option Bool) :
    Option EditEvent → EditEvent → List String → Bool →
    Except PyErr (Option EditEvent × EditEvent × Bool)
  | prev, edit, [], ht => .ok (prev, edit, ht)
  | prev, edit, eff :: rest, ht => do
    let (p2, e2, ht2) ← fixupEffect listDrop prev edit eff ht
    fixupEffects listDrop p2 e2 rest ht2

/-- Second pass over the whole edit list (`done` are the already processed
edits, in order; the previous edit is its last element and updates to it are
written back). -/
def fixupLoop (listDrop : Option Bool) :
    List EditEvent → List EditEvent → Bool → Except PyErr (List EditEvent × Bool)
  | done, [], ht => .ok (done, ht)
  | done, e :: rest, ht => do
    let (prev2, e2, ht2) ← fixupEffects listDrop done.getLast? e e._effects ht
    let done2 :=
      match prev2 with
      | some p => done.dropLast ++ [p]
      | none => done
    fixupLoop listDrop (done2 ++ [e2]) rest ht2

/-- The `EditList` attributes relevant here after `read_cmx_edl`. -/
structure EditList where
  _title : Option String
  _edits : List EditEvent
  _has_transitions : Bool
  _drop_frame : Option Bool
  _fps : ℚ
  deriving DecidableEq, Repr

/-- `EditList(fps=fps, file_path=...)`: `__init__` resets the fields and
`read_cmx_edl` runs the two passes. -/
def read_cmx_edl (lines : List String) (fps : ℚ := 24) : Except PyErr EditList := do
  let st ← parseLines fps ⟨none, [], 0, none⟩ lines
  let (edits2, ht) ← fixupLoop st._drop_frame [] st._edits false
  .ok ⟨st._title, edits2, ht, st._drop_frame, fps⟩

/-! ### Bridging lemmas: the rational (Python float) pipeline on integer
inputs computes integer division/remainder -/

theorem truncQ_nonneg_eq_floor (q : ℚ) (h : 0 ≤ q) : truncQ q = ⌊q⌋ := by
  unfold truncQ
  rw [if_pos h]

theorem ediv_ediv (a b c : ℤ) (hb : 0 < b) (hc : 0 < c) : a / b / c = a / (b * c) := by
  have h1 : a % b + b * (a / b) = a := Int.emod_add_ediv a b
  have h2 : a / b % c + c * (a / b / c) = a / b := Int.emod_add_ediv (a / b) c
  have hr1 : 0 ≤ a % b := Int.emod_nonneg a (by omega)
  have hr2 : a % b < b := Int.emod_lt_of_pos a hb
  have hr3 : 0 ≤ a / b % c := Int.emod_nonneg (a / b) (by omega)
  have hr4 : a / b % c < c := Int.emod_lt_of_pos (a / b) hc
  set r : ℤ := b * (a / b % c) + a % b with hrdef
  have hsplit : a = r + (a / b / c) * (b * c) := by
    rw [hrdef]
    nlinarith [h1, h2]
  have hrlt : r < b * c := by nlinarith
  have hr0 : 0 ≤ r := by positivity
  conv_rhs => rw [hsplit]
  rw [Int.add_mul_ediv_right r (a / b / c) (by positivity : b * c ≠ 0),
    Int.ediv_eq_zero_of_lt hr0 hrlt, zero_add]

theorem truncQ_pyFloatMod_div (a b : ℤ) (m : ℕ) (hb : 0 < b) (hm : 0 < m) :
    truncQ (pyFloatMod ((a : ℚ) / (b : ℚ)) (m : ℚ)) = a / b % m := by
  have hbq : (0 : ℚ) < (b : ℚ) := by exact_mod_cast hb
  have hmq : (0 : ℚ) < (m : ℚ) := by exact_mod_cast hm
  set q : ℚ := (a : ℚ) / (b : ℚ) with hq
  have hfloor : ⌊q⌋ = a / b := floor_intCast_div a b hb
  have hfloor2 : ⌊q / (m : ℚ)⌋ = a / (b * m) := by
    have : q / (m : ℚ) = (a : ℚ) / ((b * (m : ℤ) : ℤ) : ℚ) := by
      rw [hq]
      push_cast
      rw [div_div]
    rw [this]
    exact floor_intCast_div a (b * m) (by positivity)
  have hdivdiv : a / (b * m) = a / b / m := by
    rw [ediv_ediv a b m hb (by exact_mod_cast hm)]
  set Q : ℤ := a / b with hQ
  set R : ℤ := Q % m with hR
  have hqQ1 : (Q : ℚ) ≤ q := by
    rw [← hfloor]; exact Int.floor_le q
  have hqQ2 : q < (Q : ℚ) + 1 := by
    rw [← hfloor]; exact Int.lt_floor_add_one q
  have hval : pyFloatMod q (m : ℚ) = q - (Q : ℚ) + (R : ℚ) := by
    unfold pyFloatMod
    rw [hfloor2, hdivdiv]
    have hZ : (m : ℤ) * (Q / (m : ℤ)) = Q - R := by
      have h := Int.ediv_add_emod Q (m : ℤ)
      rw [hR]; linarith [h]
    have hcast : (m : ℚ) * ((Q / (m : ℤ) : ℤ) : ℚ) = ((Q - R : ℤ) : ℚ) := by
      rw [← hZ]; push_cast; ring
    rw [hcast]
    push_cast
    ring
  have hR0 : 0 ≤ R := Int.emod_nonneg Q (by omega)
  have hRv : (R : ℚ) ≤ pyFloatMod q (m : ℚ) := by
    rw [hval]; linarith
  have hRv2 : pyFloatMod q (m : ℚ) < (R : ℚ) + 1 := by
    rw [hval]; linarith
  rw [truncQ_nonneg_eq_floor _ (le_trans (by exact_mod_cast hR0) hRv)]
  rw [Int.floor_eq_iff]
  exact ⟨hRv, hRv2⟩

theorem truncQ_pyFloatMod_int (a : ℤ) (m : ℕ) (hm : 0 < m) :
    truncQ (pyFloatMod (a : ℚ) (m : ℚ)) = a % m := by
  have h := truncQ_pyFloatMod_div a 1 m one_pos hm
  simpa using h

/-- `py_tc_fields` on an integer frame count is plain integer arithmetic:
truncating division toward zero for the hours, floor division with
non-negative remainders for the rest. -/
theorem py_tc_fields_int (g F : ℤ) (hF : 0 < F) :
    py_tc_fields (g : ℚ) F =
      (g.tdiv (3600 * F), g / (60 * F) % 60, g / F % 60, g % F) := by
  unfold py_tc_fields
  have e1 : ((3600 : ℚ) * (F : ℚ)) = ((3600 * F : ℤ) : ℚ) := by push_cast; ring
  have e2 : ((60 : ℚ) * (F : ℚ)) = ((60 * F : ℤ) : ℚ) := by push_cast; ring
  have c60 : ((60 : ℕ) : ℚ) = (60 : ℚ) := by norm_num
  refine Prod.ext ?_ (Prod.ext ?_ (Prod.ext ?_ ?_))
  · show truncQ ((g : ℚ) / ((3600 : ℚ) * (F : ℚ))) = g.tdiv (3600 * F)
    rw [e1, truncQ_intCast_div g (3600 * F) (by positivity)]
  · show truncQ (pyFloatMod ((g : ℚ) / ((60 : ℚ) * (F : ℚ))) 60) = g / (60 * F) % 60
    rw [e2, ← c60, truncQ_pyFloatMod_div g (60 * F) 60 (by positivity) (by norm_num)]
    norm_num
  · show truncQ (pyFloatMod ((g : ℚ) / (F : ℚ)) 60) = g / F % 60
    rw [← c60, truncQ_pyFloatMod_div g F 60 hF (by norm_num)]
    norm_num
  · show truncQ (pyFloatMod (g : ℚ) (F : ℚ)) = g % F
    have hFn : F = ((F.toNat : ℕ) : ℤ) := by omega
    have : (F : ℚ) = ((F.toNat : ℕ) : ℚ) := by exact_mod_cast hFn
    rw [this, truncQ_pyFloatMod_int g F.toNat (by omega), ← hFn]

/-- Integer counterpart of `py_df_add_frames` (what the rational pipeline
computes on an integer frame count). -/
def df_add_int (f dpm fp10m fpm : ℤ) : ℤ :=
  if f % fp10m > dpm then
    dpm * 9 * f.tdiv fp10m + dpm * ((f % fp10m - dpm).tdiv fpm)
  else dpm * 9 * f.tdiv fp10m

/-- `py_df_add_frames` on an integer frame count. -/
theorem py_df_add_frames_int (f dpm fp10m fpm : ℤ) (h10 : 0 < fp10m) (hfpm : 0 < fpm) :
    py_df_add_frames (f : ℚ) dpm fp10m fpm = df_add_int f dpm fp10m fpm := by
  unfold df_add_int
  unfold py_df_add_frames
  have hchunks : truncQ ((f : ℚ) / (fp10m : ℚ)) = f.tdiv fp10m :=
    truncQ_intCast_div f fp10m h10
  have hrem : pyFloatMod (f : ℚ) (fp10m : ℚ) = ((f % fp10m : ℤ) : ℚ) :=
    pyFloatMod_intCast f fp10m h10
  rw [hchunks, hrem]
  have hcmp : (((f % fp10m : ℤ) : ℚ) > (dpm : ℚ)) ↔ (f % fp10m > dpm) := by
    exact_mod_cast Iff.rfl
  by_cases hc : f % fp10m > dpm
  · rw [if_pos (hcmp.mpr hc), if_pos hc]
    have : ((f % fp10m : ℤ) : ℚ) - (dpm : ℚ) = ((f % fp10m - dpm : ℤ) : ℚ) := by
      push_cast; ring
    rw [this, truncQ_intCast_div _ fpm hfpm]
  · rw [if_neg (fun h => hc (hcmp.mp h)), if_neg hc]

theorem pyRound_intCast (n : ℤ) : pyRound (n : ℚ) = n := by
  unfold pyRound
  rw [Int.floor_eq_iff]
  constructor
  · linarith
  · linarith

theorem pyRound_2997 : pyRound (2997/100 : ℚ) = 30 := by
  unfold pyRound
  rw [Int.floor_eq_iff]
  norm_num

theorem pyRound_5994 : pyRound (5994/100 : ℚ) = 60 := by
  unfold pyRound
  rw [Int.floor_eq_iff]
  norm_num

theorem mem_VALID_2997 : (2997/100 : ℚ) ∈ VALID_DROP_FRAME_FPS := by
  unfold VALID_DROP_FRAME_FPS
  exact List.mem_cons_self _ _

theorem mem_VALID_5994 : (5994/100 : ℚ) ∈ VALID_DROP_FRAME_FPS := by
  unfold VALID_DROP_FRAME_FPS
  exact List.mem_cons.mpr (Or.inr (List.mem_singleton.mpr rfl))

/-- `timecode_from_frame` at 29.97 fps drop-frame, on an integer frame count:
the fully integer form. -/
theorem timecode_from_frame_df2997 (f : ℤ) :
    timecode_from_frame (f : ℚ) (2997/100) true =
      .ok ⟨pad2 ((f + df_add_int f 2 17982 1798).tdiv 108000) ++ ':' ::
        pad2 ((f + df_add_int f 2 17982 1798) / 1800 % 60) ++ ':' ::
        pad2 ((f + df_add_int f 2 17982 1798) / 30 % 60) ++ ';' ::
        pad2 ((f + df_add_int f 2 17982 1798) % 30)⟩ := by
  unfold timecode_from_frame
  rw [if_neg (by simp [mem_VALID_2997])]
  simp only [DROP_FRAME_fps_int, DROP_FRAME_count, DROP_FRAME_fp10m, if_pos rfl, if_true]
  have hadd : py_df_add_frames (f : ℚ) ((2 : ℕ) : ℤ) 17982 (30 * 60 - ((2 : ℕ) : ℤ)) =
      df_add_int f 2 17982 1798 := by
    have : ((2 : ℕ) : ℤ) = (2 : ℤ) := by norm_num
    rw [this]
    have : (30 * 60 - (2 : ℤ)) = 1798 := by norm_num
    rw [this]
    exact py_df_add_frames_int f 2 17982 1798 (by norm_num) (by norm_num)
  rw [hadd]
  have hg : (f : ℚ) + ((df_add_int f 2 17982 1798 : ℤ) : ℚ) =
      ((f + df_add_int f 2 17982 1798 : ℤ) : ℚ) := by push_cast; ring
  rw [hg, py_tc_fields_int _ 30 (by norm_num)]
  norm_num

/-- `timecode_from_frame` at 59.94 fps drop-frame, on an integer frame count. -/
theorem timecode_from_frame_df5994 (f : ℤ) :
    timecode_from_frame (f : ℚ) (5994/100) true =
      .ok ⟨pad2 ((f + df_add_int f 4 35964 3596).tdiv 216000) ++ ':' ::
        pad2 ((f + df_add_int f 4 35964 3596) / 3600 % 60) ++ ':' ::
        pad2 ((f + df_add_int f 4 35964 3596) / 60 % 60) ++ ';' ::
        pad2 ((f + df_add_int f 4 35964 3596) % 60)⟩ := by
  unfold timecode_from_frame
  rw [if_neg (by simp [mem_VALID_5994])]
  have hne : ((5994/100 : ℚ) = 2997/100) = False := by
    simp only [eq_iff_iff, iff_false]
    norm_num
  simp only [DROP_FRAME_fps_int, DROP_FRAME_count, DROP_FRAME_fp10m, hne, if_false,
    if_pos rfl, if_true]
  have hadd : py_df_add_frames (f : ℚ) ((4 : ℕ) : ℤ) 35964 (60 * 60 - ((4 : ℕ) : ℤ)) =
      df_add_int f 4 35964 3596 := by
    have h4 : ((4 : ℕ) : ℤ) = (4 : ℤ) := by norm_num
    rw [h4]
    have : (60 * 60 - (4 : ℤ)) = 3596 := by norm_num
    rw [this]
    exact py_df_add_frames_int f 4 35964 3596 (by norm_num) (by norm_num)
  rw [hadd]
  have hg : (f : ℚ) + ((df_add_int f 4 35964 3596 : ℤ) : ℚ) =
      ((f + df_add_int f 4 35964 3596 : ℤ) : ℚ) := by push_cast; ring
  rw [hg, py_tc_fields_int _ 60 (by norm_num)]
  norm_num

/-- `timecode_from_frame` non-drop-frame, on an integer frame count. -/
theorem timecode_from_frame_ndf (f : ℤ) (fps : ℚ) (F : ℤ) (hF : pyRound fps = F)
    (h0 : 0 < F) :
    timecode_from_frame (f : ℚ) fps false =
      .ok ⟨pad2 (f.tdiv (3600 * F)) ++ ':' :: pad2 (f / (60 * F) % 60) ++ ':' ::
        pad2 (f / F % 60) ++ ':' :: pad2 (f % F)⟩ := by
  unfold timecode_from_frame
  rw [if_neg (by simp)]
  simp only [Bool.false_eq_true, if_false, hF]
  rw [py_tc_fields_int f F h0]

theorem char_digit_isDigit (n : ℕ) (h : n < 10) : (Nat.digitChar n).isDigit = true := by
  interval_cases n <;> decide

theorem digitVal_digitChar (n : ℕ) (h : n < 10) : digitVal (Nat.digitChar n) = n := by
  interval_cases n <;> decide

theorem digitChar_ne_newline (n : ℕ) (h : n < 10) : Nat.digitChar n ≠ '\n' := by
  interval_cases n <;> decide

theorem digitChar_not_colon (n : ℕ) (h : n < 10) : (Nat.digitChar n == ':') = false := by
  interval_cases n <;> decide

/-- Parsing a rendered `hh:mm:ss[d]ff` string recovers the four fields. -/
theorem parse_timecode_render (h m s fr : ℤ) (hh0 : 0 ≤ h) (hh : h < 100)
    (hm0 : 0 ≤ m) (hm : m < 100) (hs0 : 0 ≤ s) (hs : s < 100)
    (hf0 : 0 ≤ fr) (hf : fr < 100) (d : Char)
    (hd : d = ':' ∨ d = ';' ∨ d = '.' ∨ d = ',') :
    parse_timecode ⟨pad2 h ++ ':' :: pad2 m ++ ':' :: pad2 s ++ d :: pad2 fr⟩ =
      .ok (h.toNat, m.toNat, s.toNat, fr.toNat) := by
  rw [pad2_eq h hh0 hh, pad2_eq m hm0 hm, pad2_eq s hs0 hs, pad2_eq fr hf0 hf]
  have hdig : ∀ k : ℕ, k < 100 →
      (Nat.digitChar (k / 10)).isDigit = true ∧ (Nat.digitChar (k % 10)).isDigit = true ∧
      10 * digitVal (Nat.digitChar (k / 10)) + digitVal (Nat.digitChar (k % 10)) = k := by
    intro k hk
    refine ⟨char_digit_isDigit _ (by omega), char_digit_isDigit _ (by omega), ?_⟩
    rw [digitVal_digitChar _ (by omega), digitVal_digitChar _ (by omega)]
    omega
  obtain ⟨d1h, d2h, dvh⟩ := hdig h.toNat (by omega)
  obtain ⟨d1m, d2m, dvm⟩ := hdig m.toNat (by omega)
  obtain ⟨d1s, d2s, dvs⟩ := hdig s.toNat (by omega)
  obtain ⟨d1f, d2f, dvf⟩ := hdig fr.toNat (by omega)
  have hdeq : (d == ':' || d == ';' || d == '.' || d == ',') = true := by
    rcases hd with rfl | rfl | rfl | rfl <;> decide
  unfold parse_timecode
  simp only [List.cons_append, List.nil_append]
  rw [d1h, d2h]
  simp only [Bool.and_self, Bool.true_and, if_true]
  rw [if_neg (by decide : ¬((':'.isDigit) = true))]
  unfold parse_timecode_tail
  simp only [d1m, d2m, d1s, d2s, d1f, d2f, hdeq, beq_self_eq_true, Bool.and_true,
    Bool.true_and, Bool.and_self, if_true]
  rw [dvh, dvm, dvs, dvf]

theorem digitChar_ne_newline_b (n : ℕ) (h : n < 10) :
    (Nat.digitChar n != '\n') = true := by
  interval_cases n <;> decide

/-- Drop-frame detection on a rendered `hh:mm:ss[d]ff` string: the delimiter
before the frames decides. -/
theorem str_is_drop_frame_render (h m s fr : ℤ) (hh0 : 0 ≤ h) (hh : h < 100)
    (hm0 : 0 ≤ m) (hm : m < 100) (hs0 : 0 ≤ s) (hs : s < 100)
    (hf0 : 0 ≤ fr) (hf : fr < 100) (d : Char)
    (hd : DELIMITER_REGEX_CLASS.contains d = true) :
    str_is_drop_frame ⟨pad2 h ++ ':' :: pad2 m ++ ':' :: pad2 s ++ d :: pad2 fr⟩ =
      .ok (VALID_DROP_FRAME_DELIMITERS.contains d) := by
  rw [pad2_eq h hh0 hh, pad2_eq m hm0 hm, pad2_eq s hs0 hs, pad2_eq fr hf0 hf]
  unfold str_is_drop_frame
  simp only [List.cons_append, List.nil_append, List.reverse_cons, List.reverse_nil,
    List.nil_append, List.append_assoc, List.cons_append, List.singleton_append]
  simp only [List.all_cons, List.all_nil,
    char_digit_isDigit _ (show fr.toNat % 10 < 10 by omega),
    char_digit_isDigit _ (show fr.toNat / 10 < 10 by omega), hd,
    digitChar_ne_newline_b _ (show s.toNat % 10 < 10 by omega),
    digitChar_ne_newline_b _ (show s.toNat / 10 < 10 by omega),
    digitChar_ne_newline_b _ (show m.toNat % 10 < 10 by omega),
    digitChar_ne_newline_b _ (show m.toNat / 10 < 10 by omega),
    digitChar_ne_newline_b _ (show h.toNat % 10 < 10 by omega),
    digitChar_ne_newline_b _ (show h.toNat / 10 < 10 by omega),
    Bool.and_self, Bool.and_true, Bool.true_and, if_true]
  rfl

/-- `frame_from_timecode` on a rendered non-drop string (delimiter `:`) with
an explicit `drop_frame=False` request. -/
theorem frame_from_timecode_render_ndf (h m s fr : ℤ) (hh0 : 0 ≤ h) (hh : h < 100)
    (hm0 : 0 ≤ m) (hm : m < 100) (hs0 : 0 ≤ s) (hs : s < 100)
    (hf0 : 0 ≤ fr) (hf : fr < 100) (fps : ℚ) :
    frame_from_timecode ⟨pad2 h ++ ':' :: pad2 m ++ ':' :: pad2 s ++ ':' :: pad2 fr⟩
        fps (some false) =
      .ok (frame_from_timecode_core h.toNat m.toNat s.toNat fr.toNat fps false) := by
  unfold frame_from_timecode compute_drop_frame_setting
  rw [parse_timecode_render h m s fr hh0 hh hm0 hm hs0 hs hf0 hf ':' (Or.inl rfl),
    str_is_drop_frame_render h m s fr hh0 hh hm0 hm hs0 hs hf0 hf ':' (by decide)]
  simp only [Bind.bind, Except.bind]
  rfl

/-- `frame_from_timecode` on a rendered drop-frame string (delimiter `;`) with
an explicit `drop_frame=True` request, at a valid drop-frame rate. -/
theorem frame_from_timecode_render_df (h m s fr : ℤ) (hh0 : 0 ≤ h) (hh : h < 100)
    (hm0 : 0 ≤ m) (hm : m < 100) (hs0 : 0 ≤ s) (hs : s < 100)
    (hf0 : 0 ≤ fr) (hf : fr < 100) (fps : ℚ) (hfps : fps ∈ VALID_DROP_FRAME_FPS) :
    frame_from_timecode ⟨pad2 h ++ ':' :: pad2 m ++ ':' :: pad2 s ++ ';' :: pad2 fr⟩
        fps (some true) =
      .ok (frame_from_timecode_core h.toNat m.toNat s.toNat fr.toNat fps true) := by
  unfold frame_from_timecode compute_drop_frame_setting
  rw [parse_timecode_render h m s fr hh0 hh hm0 hm hs0 hs hf0 hf ';' (Or.inr (Or.inl rfl)),
    str_is_drop_frame_render h m s fr hh0 hh hm0 hm hs0 hs hf0 hf ';' (by decide)]
  simp only [Bind.bind, Except.bind]
  rw [if_neg (by simp [hfps])]

/-! ### Round-trip arithmetic -/

/-- Frame → timecode string → frame, non-drop-frame, any rate whose rounded
value is a positive integer at most 100, frames below the ten-hour mark. -/
theorem roundtrip_frame_ndf (fps : ℚ) (F : ℤ) (hF : pyRound fps = F) (h0 : 0 < F)
    (h100 : F ≤ 100) (f : ℕ) (hf : (f : ℚ) < 36000 * fps) :
    (timecode_from_frame (f : ℚ) fps false).bind
      (fun str => frame_from_timecode str fps (some false)) = .ok (f : ℤ) := by
  have hfps_lt : fps < (F : ℚ) + 1/2 := by
    have := Int.lt_floor_add_one (fps + 1/2)
    unfold pyRound at hF
    rw [hF] at this
    linarith
  have hfZ : (f : ℤ) < 36000 * F + 18000 := by
    have h1 : (f : ℚ) < 36000 * ((F : ℚ) + 1/2) := by
      calc (f : ℚ) < 36000 * fps := hf
      _ ≤ 36000 * ((F : ℚ) + 1/2) := by linarith
    have h2 : (f : ℚ) < ((36000 * F + 18000 : ℤ) : ℚ) := by push_cast; linarith
    exact_mod_cast h2
  set fz : ℤ := (f : ℤ) with hfz
  have hfz0 : 0 ≤ fz := Int.natCast_nonneg f
  -- the four components
  have q1 : fz / F = 60 * (fz / (60 * F)) + fz / F % 60 := by
    have h := ediv_ediv fz F 60 h0 (by norm_num)
    rw [show F * 60 = 60 * F by ring] at h
    omega
  have q2 : fz / (60 * F) = 60 * (fz / (3600 * F)) + fz / (60 * F) % 60 := by
    have h := ediv_ediv fz (60 * F) 60 (by positivity) (by norm_num)
    rw [show 60 * F * 60 = 3600 * F by ring] at h
    omega
  have hcomp_h : fz / (3600 * F) < 100 := by
    have h54 : fz < 54000 * F := by nlinarith
    have := Int.ediv_le_ediv (show (0:ℤ) < 3600 * F by positivity)
      (show fz ≤ 54000 * F - 1 by omega)
    have h2 : (54000 * F - 1) / (3600 * F) < 100 := by
      rw [Int.ediv_lt_iff_lt_mul (by positivity)]
      nlinarith
    omega
  have hH0 : 0 ≤ fz / (3600 * F) := Int.ediv_nonneg hfz0 (by positivity)
  have hM0 : 0 ≤ fz / (60 * F) % 60 := Int.emod_nonneg _ (by norm_num)
  have hM : fz / (60 * F) % 60 < 60 := Int.emod_lt_of_pos _ (by norm_num)
  have hS0 : 0 ≤ fz / F % 60 := Int.emod_nonneg _ (by norm_num)
  have hS : fz / F % 60 < 60 := Int.emod_lt_of_pos _ (by norm_num)
  have hFr0 : 0 ≤ fz % F := Int.emod_nonneg _ (by omega)
  have hFr : fz % F < F := Int.emod_lt_of_pos _ h0
  have htdiv : fz.tdiv (3600 * F) = fz / (3600 * F) :=
    Int.tdiv_eq_ediv hfz0 (by positivity)
  rw [show ((f : ℕ) : ℚ) = ((fz : ℤ) : ℚ) from by rw [hfz]; exact (Int.cast_natCast f).symm]
  rw [timecode_from_frame_ndf fz fps F hF h0, htdiv]
  simp only [Except.bind]
  rw [frame_from_timecode_render_ndf _ _ _ _ hH0 hcomp_h hM0 (by omega) hS0 (by omega)
    hFr0 (by omega) fps]
  unfold frame_from_timecode_core
  simp only [DROP_FRAME_count, hF]
  have e0 : fz = F * (fz / F) + fz % F := by
    have := Int.ediv_add_emod fz F
    omega
  congr 1
  have ht1 : ((fz / (3600 * F)).toNat : ℤ) = fz / (3600 * F) := Int.toNat_of_nonneg hH0
  have ht2 : ((fz / (60 * F) % 60).toNat : ℤ) = fz / (60 * F) % 60 := Int.toNat_of_nonneg hM0
  have ht3 : ((fz / F % 60).toNat : ℤ) = fz / F % 60 := Int.toNat_of_nonneg hS0
  have ht4 : ((fz % F).toNat : ℤ) = fz % F := Int.toNat_of_nonneg hFr0
  push_cast [ht1, ht2, ht3, ht4]
  linear_combination (-(F : ℤ)) * q1 - 60 * F * q2 - e0

theorem DROP_FRAME_count_2997 : DROP_FRAME_count (2997/100) = 2 := by
  unfold DROP_FRAME_count
  rw [if_pos rfl]

theorem DROP_FRAME_count_5994 : DROP_FRAME_count (5994/100) = 4 := by
  unfold DROP_FRAME_count
  rw [if_neg (by norm_num), if_pos rfl]

/-- Frame → timecode string → frame, 29.97 fps drop-frame, frames below the
ten-hour mark (`10 * 30 * 3600 - 18 * 60 = 1078920` labelled frames). -/
theorem roundtrip_frame_df2997 (f : ℕ) (hf : f < 1078920) :
    (timecode_from_frame (f : ℚ) (2997/100) true).bind
      (fun str => frame_from_timecode str (2997/100) (some true)) = .ok (f : ℤ) := by
  rw [show ((f : ℕ) : ℚ) = (((f : ℤ)) : ℚ) from (Int.cast_natCast f).symm,
    timecode_from_frame_df2997 (f : ℤ)]
  set fz : ℤ := (f : ℤ) with hfz
  have hfz0 : 0 ≤ fz := Int.natCast_nonneg f
  have hfzlt : fz < 1078920 := by omega
  have htd1 : fz.tdiv 17982 = fz / 17982 := Int.tdiv_eq_ediv hfz0 (by norm_num)
  have hA : df_add_int fz 2 17982 1798 =
      if fz % 17982 > 2 then 18 * (fz / 17982) + 2 * ((fz % 17982 - 2) / 1798)
      else 18 * (fz / 17982) := by
    unfold df_add_int
    rw [htd1]
    by_cases hc : fz % 17982 > 2
    · rw [if_pos hc, if_pos hc, Int.tdiv_eq_ediv (by omega) (by norm_num)]
      ring_nf
    · rw [if_neg hc, if_neg hc]
      ring_nf
  rw [hA]
  set A : ℤ := (if fz % 17982 > 2 then 18 * (fz / 17982) + 2 * ((fz % 17982 - 2) / 1798)
      else 18 * (fz / 17982)) with hAdef
  have hAb : 0 ≤ A ∧ A ≤ 1080 := by
    rw [hAdef]
    split_ifs with hc
    · omega
    · omega
  set g : ℤ := fz + A with hg
  have hgb : 0 ≤ g ∧ g < 1080000 := by omega
  have htd2 : g.tdiv 108000 = g / 108000 := Int.tdiv_eq_ediv (by omega) (by norm_num)
  rw [htd2]
  simp only [Except.bind]
  rw [frame_from_timecode_render_df (g / 108000) (g / 1800 % 60) (g / 30 % 60) (g % 30)
    (by omega) (by omega) (by omega) (by omega) (by omega) (by omega) (by omega) (by omega)
    (2997/100) mem_VALID_2997]
  unfold frame_from_timecode_core
  simp only [DROP_FRAME_count_2997, pyRound_2997, if_true]
  congr 1
  obtain ⟨H, hH⟩ : ∃ H : ℕ, (H : ℤ) = g / 108000 :=
    ⟨(g / 108000).toNat, Int.toNat_of_nonneg (by omega)⟩
  obtain ⟨M, hM⟩ : ∃ M : ℕ, (M : ℤ) = g / 1800 % 60 :=
    ⟨(g / 1800 % 60).toNat, Int.toNat_of_nonneg (by omega)⟩
  obtain ⟨S, hS⟩ : ∃ S : ℕ, (S : ℤ) = g / 30 % 60 :=
    ⟨(g / 30 % 60).toNat, Int.toNat_of_nonneg (by omega)⟩
  obtain ⟨R, hR⟩ : ∃ R : ℕ, (R : ℤ) = g % 30 :=
    ⟨(g % 30).toNat, Int.toNat_of_nonneg (by omega)⟩
  rw [← hH, ← hM, ← hS, ← hR, Int.toNat_natCast, Int.toNat_natCast, Int.toNat_natCast,
    Int.toNat_natCast]
  have comp1 : g / 1800 / 60 = g / 108000 := by
    rw [ediv_ediv g 1800 60 (by norm_num) (by norm_num)]
    norm_num
  have comp2 : g / 30 / 60 = g / 1800 := by
    rw [ediv_ediv g 30 60 (by norm_num) (by norm_num)]
    norm_num
  rw [hAdef] at hg
  split_ifs at hg with hc <;> omega

/-- Frame → timecode string → frame, 59.94 fps drop-frame, frames below the
ten-hour mark (`2157840` labelled frames). -/
theorem roundtrip_frame_df5994 (f : ℕ) (hf : f < 2157840) :
    (timecode_from_frame (f : ℚ) (5994/100) true).bind
      (fun str => frame_from_timecode str (5994/100) (some true)) = .ok (f : ℤ) := by
  rw [show ((f : ℕ) : ℚ) = (((f : ℤ)) : ℚ) from (Int.cast_natCast f).symm,
    timecode_from_frame_df5994 (f : ℤ)]
  set fz : ℤ := (f : ℤ) with hfz
  have hfz0 : 0 ≤ fz := Int.natCast_nonneg f
  have hfzlt : fz < 2157840 := by omega
  have htd1 : fz.tdiv 35964 = fz / 35964 := Int.tdiv_eq_ediv hfz0 (by norm_num)
  have hA : df_add_int fz 4 35964 3596 =
      if fz % 35964 > 4 then 36 * (fz / 35964) + 4 * ((fz % 35964 - 4) / 3596)
      else 36 * (fz / 35964) := by
    unfold df_add_int
    rw [htd1]
    by_cases hc : fz % 35964 > 4
    · rw [if_pos hc, if_pos hc, Int.tdiv_eq_ediv (by omega) (by norm_num)]
      ring_nf
    · rw [if_neg hc, if_neg hc]
      ring_nf
  rw [hA]
  set A : ℤ := (if fz % 35964 > 4 then 36 * (fz / 35964) + 4 * ((fz % 35964 - 4) / 3596)
      else 36 * (fz / 35964)) with hAdef
  have hAb : 0 ≤ A ∧ A ≤ 2196 := by
    rw [hAdef]
    split_ifs with hc
    · omega
    · omega
  set g : ℤ := fz + A with hg
  have hgb : 0 ≤ g ∧ g < 2160432 := by omega
  have htd2 : g.tdiv 216000 = g / 216000 := Int.tdiv_eq_ediv (by omega) (by norm_num)
  rw [htd2]
  simp only [Except.bind]
  rw [frame_from_timecode_render_df (g / 216000) (g / 3600 % 60) (g / 60 % 60) (g % 60)
    (by omega) (by omega) (by omega) (by omega) (by omega) (by omega) (by omega) (by omega)
    (5994/100) mem_VALID_5994]
  unfold frame_from_timecode_core
  simp only [DROP_FRAME_count_5994, pyRound_5994, if_true]
  congr 1
  obtain ⟨H, hH⟩ : ∃ H : ℕ, (H : ℤ) = g / 216000 :=
    ⟨(g / 216000).toNat, Int.toNat_of_nonneg (by omega)⟩
  obtain ⟨M, hM⟩ : ∃ M : ℕ, (M : ℤ) = g / 3600 % 60 :=
    ⟨(g / 3600 % 60).toNat, Int.toNat_of_nonneg (by omega)⟩
  obtain ⟨S, hS⟩ : ∃ S : ℕ, (S : ℤ) = g / 60 % 60 :=
    ⟨(g / 60 % 60).toNat, Int.toNat_of_nonneg (by omega)⟩
  obtain ⟨R, hR⟩ : ∃ R : ℕ, (R : ℤ) = g % 60 :=
    ⟨(g % 60).toNat, Int.toNat_of_nonneg (by omega)⟩
  rw [← hH, ← hM, ← hS, ← hR, Int.toNat_natCast, Int.toNat_natCast, Int.toNat_natCast,
    Int.toNat_natCast]
  have comp1 : g / 3600 / 60 = g / 216000 := by
    rw [ediv_ediv g 3600 60 (by norm_num) (by norm_num)]
    norm_num
  have comp2 : g / 60 / 60 = g / 3600 := by
    rw [ediv_ediv g 60 60 (by norm_num) (by norm_num)]
    norm_num
  rw [hAdef] at hg
  split_ifs at hg with hc <;> omega

theorem ediv_add_mul_small (r q D : ℤ) (hr0 : 0 ≤ r) (hr : r < D) :
    (r + q * D) / D = q := by
  rw [Int.add_mul_ediv_right r q (by omega : D ≠ 0),
    Int.ediv_eq_zero_of_lt hr0 hr, zero_add]

theorem emod_add_mul_small (r q D : ℤ) (hr0 : 0 ≤ r) (hr : r < D) :
    (r + q * D) % D = r := by
  rw [Int.add_mul_emod_self, Int.emod_eq_of_lt hr0 hr]

/-- Timecode → frame → timecode, non-drop-frame: identity on rendered
`hh:mm:ss:ff` strings with in-range fields. -/
theorem roundtrip_tc_ndf (fps : ℚ) (F : ℤ) (hF : pyRound fps = F) (h0 : 0 < F)
    (h100 : F ≤ 100) (h m s fr : ℕ) (hh : h < 100) (hm : m < 60) (hs : s < 60)
    (hfr : (fr : ℤ) < F) :
    (frame_from_timecode
        ⟨pad2 (h : ℤ) ++ ':' :: pad2 (m : ℤ) ++ ':' :: pad2 (s : ℤ) ++ ':' :: pad2 (fr : ℤ)⟩
        fps (some false)).bind
      (fun n => timecode_from_frame (n : ℚ) fps false) =
      .ok ⟨pad2 (h : ℤ) ++ ':' :: pad2 (m : ℤ) ++ ':' :: pad2 (s : ℤ) ++ ':' ::
        pad2 (fr : ℤ)⟩ := by
  rw [frame_from_timecode_render_ndf (h : ℤ) (m : ℤ) (s : ℤ) (fr : ℤ)
    (Int.natCast_nonneg h) (by exact_mod_cast hh) (Int.natCast_nonneg m)
    (by exact_mod_cast (by omega : m < 100)) (Int.natCast_nonneg s)
    (by exact_mod_cast (by omega : s < 100)) (Int.natCast_nonneg fr)
    (by omega) fps]
  simp only [Int.toNat_natCast, Except.bind]
  rw [timecode_from_frame_ndf (frame_from_timecode_core h m s fr fps false) fps F hF h0]
  set F0 : ℤ := frame_from_timecode_core h m s fr fps false with hF0
  have hF0v : F0 = (fr : ℤ) + (3600 * (h : ℤ) + 60 * m + s) * F := by
    rw [hF0]
    unfold frame_from_timecode_core
    simp only [Bool.false_eq_true, if_false, hF]
    push_cast
    ring
  have hfr0 : (0 : ℤ) ≤ (fr : ℤ) := Int.natCast_nonneg fr
  have hF00 : 0 ≤ F0 := by
    rw [hF0v]
    have : 0 ≤ (3600 * (h : ℤ) + 60 * m + s) * F := by positivity
    omega
  have c4 : F0 % F = fr := by
    rw [hF0v]
    exact emod_add_mul_small _ _ _ hfr0 hfr
  have c3 : F0 / F % 60 = s := by
    have : F0 / F = 3600 * (h : ℤ) + 60 * m + s := by
      rw [hF0v]
      exact ediv_add_mul_small _ _ _ hfr0 hfr
    rw [this]
    omega
  have c2 : F0 / (60 * F) % 60 = m := by
    have hsplit : F0 = ((F * s + fr) + (60 * (h : ℤ) + m) * (60 * F)) := by
      rw [hF0v]; ring
    have hq : F0 / (60 * F) = 60 * (h : ℤ) + m := by
      rw [hsplit]
      refine ediv_add_mul_small _ _ _ (by positivity) ?_
      have h1 : F * (s : ℤ) ≤ F * 59 := by
        have : (s : ℤ) ≤ 59 := by exact_mod_cast Nat.le_of_lt_succ hs
        exact mul_le_mul_of_nonneg_left this (by omega)
      omega
    rw [hq]
    omega
  have c1 : F0 / (3600 * F) = h := by
    have hsplit : F0 = ((F * (60 * (m : ℤ) + s) + fr) + (h : ℤ) * (3600 * F)) := by
      rw [hF0v]; ring
    rw [hsplit]
    refine ediv_add_mul_small _ _ _ (by positivity) ?_
    have h1 : F * (60 * (m : ℤ) + s) ≤ F * 3599 := by
      have : 60 * (m : ℤ) + s ≤ 3599 := by
        have hm' : (m : ℤ) ≤ 59 := by exact_mod_cast Nat.le_of_lt_succ hm
        have hs' : (s : ℤ) ≤ 59 := by exact_mod_cast Nat.le_of_lt_succ hs
        omega
      exact mul_le_mul_of_nonneg_left this (by omega)
    omega
  have htd : F0.tdiv (3600 * F) = F0 / (3600 * F) :=
    Int.tdiv_eq_ediv hF00 (by positivity)
  rw [htd, c1, c2, c3, c4]

/-- Timecode → frame → timecode, 29.97 fps drop-frame: identity on rendered
`hh:mm:ss;ff` strings whose fields are in range and which name a frame label
that drop-frame notation does not skip. -/
theorem roundtrip_tc_df2997 (h m s fr : ℕ) (hh : h < 100) (hm : m < 60) (hs : s < 60)
    (hf : fr < 30) (hvalid : s = 0 → m % 10 ≠ 0 → 2 ≤ fr) :
    (frame_from_timecode
        ⟨pad2 (h : ℤ) ++ ':' :: pad2 (m : ℤ) ++ ':' :: pad2 (s : ℤ) ++ ';' :: pad2 (fr : ℤ)⟩
        (2997/100) (some true)).bind
      (fun n => timecode_from_frame (n : ℚ) (2997/100) true) =
      .ok ⟨pad2 (h : ℤ) ++ ':' :: pad2 (m : ℤ) ++ ':' :: pad2 (s : ℤ) ++ ';' ::
        pad2 (fr : ℤ)⟩ := by
  rw [frame_from_timecode_render_df (h : ℤ) (m : ℤ) (s : ℤ) (fr : ℤ)
    (Int.natCast_nonneg h) (by exact_mod_cast hh) (Int.natCast_nonneg m)
    (by exact_mod_cast (by omega : m < 100)) (Int.natCast_nonneg s)
    (by exact_mod_cast (by omega : s < 100)) (Int.natCast_nonneg fr)
    (by exact_mod_cast (by omega : fr < 100)) (2997/100) mem_VALID_2997]
  simp only [Int.toNat_natCast, Except.bind]
  rw [timecode_from_frame_df2997 (frame_from_timecode_core h m s fr (2997/100) true)]
  set F0 : ℤ := frame_from_timecode_core h m s fr (2997/100) true with hF0
  have hF0v : F0 = 108000 * (h : ℤ) + 1800 * m + 30 * s + fr -
      2 * ((60 * h + m - (60 * h + m) / 10 : ℕ) : ℤ) := by
    rw [hF0]
    unfold frame_from_timecode_core
    simp only [DROP_FRAME_count_2997, pyRound_2997, if_true]
    push_cast [Nat.cast_sub (Nat.div_le_self _ _)]
    ring
  have hF00 : 0 ≤ F0 := by omega
  have htd1 : F0.tdiv 17982 = F0 / 17982 := Int.tdiv_eq_ediv hF00 (by norm_num)
  have hA : df_add_int F0 2 17982 1798 =
      if F0 % 17982 > 2 then 18 * (F0 / 17982) + 2 * ((F0 % 17982 - 2) / 1798)
      else 18 * (F0 / 17982) := by
    unfold df_add_int
    rw [htd1]
    by_cases hc : F0 % 17982 > 2
    · rw [if_pos hc, if_pos hc, Int.tdiv_eq_ediv (by omega) (by norm_num)]
      ring_nf
    · rw [if_neg hc, if_neg hc]
      ring_nf
  rw [hA]
  set A : ℤ := (if F0 % 17982 > 2 then 18 * (F0 / 17982) + 2 * ((F0 % 17982 - 2) / 1798)
      else 18 * (F0 / 17982)) with hAdef
  have hA0 : 0 ≤ A := by
    rw [hAdef]
    split_ifs <;> omega
  set g : ℤ := F0 + A with hg
  have htd2 : g.tdiv 108000 = g / 108000 := Int.tdiv_eq_ediv (by omega) (by norm_num)
  rw [htd2]
  have comp1 : g / 1800 / 60 = g / 108000 := by
    rw [ediv_ediv g 1800 60 (by norm_num) (by norm_num)]
    norm_num
  have comp2 : g / 30 / 60 = g / 1800 := by
    rw [ediv_ediv g 30 60 (by norm_num) (by norm_num)]
    norm_num
  rw [hAdef] at hg
  have e1 : g / 108000 = (h : ℤ) := by
    split_ifs at hg with hc <;> omega
  have e2 : g / 1800 % 60 = (m : ℤ) := by
    split_ifs at hg with hc <;> omega
  have e3 : g / 30 % 60 = (s : ℤ) := by
    split_ifs at hg with hc <;> omega
  have e4 : g % 30 = (fr : ℤ) := by
    split_ifs at hg with hc <;> omega
  rw [e1, e2, e3, e4]

/-- Timecode → frame → timecode, 59.94 fps drop-frame. -/
theorem roundtrip_tc_df5994 (h m s fr : ℕ) (hh : h < 100) (hm : m < 60) (hs : s < 60)
    (hf : fr < 60) (hvalid : s = 0 → m % 10 ≠ 0 → 4 ≤ fr) :
    (frame_from_timecode
        ⟨pad2 (h : ℤ) ++ ':' :: pad2 (m : ℤ) ++ ':' :: pad2 (s : ℤ) ++ ';' :: pad2 (fr : ℤ)⟩
        (5994/100) (some true)).bind
      (fun n => timecode_from_frame (n : ℚ) (5994/100) true) =
      .ok ⟨pad2 (h : ℤ) ++ ':' :: pad2 (m : ℤ) ++ ':' :: pad2 (s : ℤ) ++ ';' ::
        pad2 (fr : ℤ)⟩ := by
  rw [frame_from_timecode_render_df (h : ℤ) (m : ℤ) (s : ℤ) (fr : ℤ)
    (Int.natCast_nonneg h) (by exact_mod_cast hh) (Int.natCast_nonneg m)
    (by exact_mod_cast (by omega : m < 100)) (Int.natCast_nonneg s)
    (by exact_mod_cast (by omega : s < 100)) (Int.natCast_nonneg fr)
    (by exact_mod_cast (by omega : fr < 100)) (5994/100) mem_VALID_5994]
  simp only [Int.toNat_natCast, Except.bind]
  rw [timecode_from_frame_df5994 (frame_from_timecode_core h m s fr (5994/100) true)]
  set F0 : ℤ := frame_from_timecode_core h m s fr (5994/100) true with hF0
  have hF0v : F0 = 216000 * (h : ℤ) + 3600 * m + 60 * s + fr -
      4 * ((60 * h + m - (60 * h + m) / 10 : ℕ) : ℤ) := by
    rw [hF0]
    unfold frame_from_timecode_core
    simp only [DROP_FRAME_count_5994, pyRound_5994, if_true]
    push_cast [Nat.cast_sub (Nat.div_le_self _ _)]
    ring
  have hF00 : 0 ≤ F0 := by omega
  have htd1 : F0.tdiv 35964 = F0 / 35964 := Int.tdiv_eq_ediv hF00 (by norm_num)
  have hA : df_add_int F0 4 35964 3596 =
      if F0 % 35964 > 4 then 36 * (F0 / 35964) + 4 * ((F0 % 35964 - 4) / 3596)
      else 36 * (F0 / 35964) := by
    unfold df_add_int
    rw [htd1]
    by_cases hc : F0 % 35964 > 4
    · rw [if_pos hc, if_pos hc, Int.tdiv_eq_ediv (by omega) (by norm_num)]
      ring_nf
    · rw [if_neg hc, if_neg hc]
      ring_nf
  rw [hA]
  set A : ℤ := (if F0 % 35964 > 4 then 36 * (F0 / 35964) + 4 * ((F0 % 35964 - 4) / 3596)
      else 36 * (F0 / 35964)) with hAdef
  have hA0 : 0 ≤ A := by
    rw [hAdef]
    split_ifs <;> omega
  set g : ℤ := F0 + A with hg
  have htd2 : g.tdiv 216000 = g / 216000 := Int.tdiv_eq_ediv (by omega) (by norm_num)
  rw [htd2]
  have comp1 : g / 3600 / 60 = g / 216000 := by
    rw [ediv_ediv g 3600 60 (by norm_num) (by norm_num)]
    norm_num
  have comp2 : g / 60 / 60 = g / 3600 := by
    rw [ediv_ediv g 60 60 (by norm_num) (by norm_num)]
    norm_num
  rw [hAdef] at hg
  have e1 : g / 216000 = (h : ℤ) := by
    split_ifs at hg with hc <;> omega
  have e2 : g / 3600 % 60 = (m : ℤ) := by
    split_ifs at hg with hc <;> omega
  have e3 : g / 60 % 60 = (s : ℤ) := by
    split_ifs at hg with hc <;> omega
  have e4 : g % 60 = (fr : ℤ) := by
    split_ifs at hg with hc <;> omega
  rw [e1, e2, e3, e4]

theorem pyIsDigitStr_colon (l : List Char) (hc : ':' ∈ l) :
    pyIsDigitStr ⟨l⟩ = false := by
  unfold pyIsDigitStr
  have : l.all Char.isDigit = false := by
    rw [List.all_eq_false]
    exact ⟨':', hc, by decide⟩
  rw [this]
  simp

/-- `Timecode.__init__` on a rendered non-drop `hh:mm:ss:ff` string with
`drop_frame` requested `False` (or unset): stores the four fields. -/
theorem make_render_ndf (h m s fr : ℕ) (fps : ℚ) (req : Option Bool)
    (hreq : req = some false ∨ req = none) (hh : h < 100) (hm : m ≤ 59) (hs : s ≤ 59)
    (hfr : fr < 100) (hfps : (fr : ℚ) < fps) :
    Timecode.make
        ⟨pad2 (h : ℤ) ++ ':' :: pad2 (m : ℤ) ++ ':' :: pad2 (s : ℤ) ++ ':' :: pad2 (fr : ℤ)⟩
        fps req false =
      .ok ⟨h, m, s, fr, fps, some false⟩ := by
  unfold Timecode.make compute_drop_frame_setting
  rw [pyIsDigitStr_colon _ (by simp)]
  simp only [Bool.false_eq_true, if_false]
  rw [parse_timecode_render (h : ℤ) (m : ℤ) (s : ℤ) (fr : ℤ)
    (Int.natCast_nonneg h) (by exact_mod_cast hh) (Int.natCast_nonneg m)
    (by exact_mod_cast (by omega : m < 100)) (Int.natCast_nonneg s)
    (by exact_mod_cast (by omega : s < 100)) (Int.natCast_nonneg fr)
    (by exact_mod_cast hfr) ':' (Or.inl rfl),
    str_is_drop_frame_render (h : ℤ) (m : ℤ) (s : ℤ) (fr : ℤ)
    (Int.natCast_nonneg h) (by exact_mod_cast hh) (Int.natCast_nonneg m)
    (by exact_mod_cast (by omega : m < 100)) (Int.natCast_nonneg s)
    (by exact_mod_cast (by omega : s < 100)) (Int.natCast_nonneg fr)
    (by exact_mod_cast hfr) ':' (by decide)]
  simp only [Int.toNat_natCast, Bind.bind, Except.bind]
  rw [show VALID_DROP_FRAME_DELIMITERS.contains ':' = false from rfl]
  rcases hreq with rfl | rfl <;>
  · simp only [pure, Except.pure, Bool.false_eq_true, if_false]
    rw [if_neg (by simp), if_neg (by omega), if_neg (by omega),
      if_neg (by push_neg; intro _; linarith [hfps])]

/-- `Timecode.__init__` on a rendered drop-frame `hh:mm:ss;ff` string with
`drop_frame` requested `True` (or unset), at a valid drop-frame rate. -/
theorem make_render_df (h m s fr : ℕ) (fps : ℚ) (req : Option Bool)
    (hreq : req = some true ∨ req = none) (hfps : fps ∈ VALID_DROP_FRAME_FPS)
    (hh : h < 100) (hm : m ≤ 59) (hs : s ≤ 59) (hfr : fr < 100)
    (hfrfps : (fr : ℚ) < fps) :
    Timecode.make
        ⟨pad2 (h : ℤ) ++ ':' :: pad2 (m : ℤ) ++ ':' :: pad2 (s : ℤ) ++ ';' :: pad2 (fr : ℤ)⟩
        fps req false =
      .ok ⟨h, m, s, fr, fps, some true⟩ := by
  unfold Timecode.make compute_drop_frame_setting
  rw [pyIsDigitStr_colon _ (by simp)]
  simp only [Bool.false_eq_true, if_false]
  rw [parse_timecode_render (h : ℤ) (m : ℤ) (s : ℤ) (fr : ℤ)
    (Int.natCast_nonneg h) (by exact_mod_cast hh) (Int.natCast_nonneg m)
    (by exact_mod_cast (by omega : m < 100)) (Int.natCast_nonneg s)
    (by exact_mod_cast (by omega : s < 100)) (Int.natCast_nonneg fr)
    (by exact_mod_cast hfr) ';' (Or.inr (Or.inl rfl)),
    str_is_drop_frame_render (h : ℤ) (m : ℤ) (s : ℤ) (fr : ℤ)
    (Int.natCast_nonneg h) (by exact_mod_cast hh) (Int.natCast_nonneg m)
    (by exact_mod_cast (by omega : m < 100)) (Int.natCast_nonneg s)
    (by exact_mod_cast (by omega : s < 100)) (Int.natCast_nonneg fr)
    (by exact_mod_cast hfr) ';' (by decide)]
  simp only [Int.toNat_natCast, Bind.bind, Except.bind]
  rw [show VALID_DROP_FRAME_DELIMITERS.contains ';' = true from rfl]
  rcases hreq with rfl | rfl <;>
  · simp only [pure, Except.pure, Bool.false_eq_true, if_false]
    rw [if_neg (by simp [hfps]), if_neg (by omega), if_neg (by omega),
      if_neg (by push_neg; intro _; linarith [hfrfps])]

theorem pyRound_24 : pyRound (24 : ℚ) = 24 := by
  rw [show (24 : ℚ) = ((24 : ℤ) : ℚ) from by norm_num]
  exact pyRound_intCast 24

/-! ### Claims -/

/-- C1: Frame/timecode conversion round-trips.  For every supported
fps/drop-frame combination — non-drop frame at any rate whose Python
`round(fps)` is a positive integer at most 100 (which covers every rate the
repository mentions), and drop frame at 29.97 and 59.94 — (a) converting a
frame number in `[0, 10*fps*3600)` to a timecode string and back yields the
same frame number, and (b) converting a valid timecode string (fields in
range; for drop frame, a frame label that the notation does not skip) to a
frame number and back yields the same timecode string. -/
theorem claim_C1_roundtrip :
    (∀ fps : ℚ, ∀ F : ℤ, pyRound fps = F → 0 < F → F ≤ 100 →
      ∀ f : ℕ, (f : ℚ) < 36000 * fps →
      (timecode_from_frame (f : ℚ) fps false).bind
        (fun str => frame_from_timecode str fps (some false)) = .ok (f : ℤ)) ∧
    (∀ f : ℕ, f < 1078920 →
      (timecode_from_frame (f : ℚ) (2997/100) true).bind
        (fun str => frame_from_timecode str (2997/100) (some true)) = .ok (f : ℤ)) ∧
    (∀ f : ℕ, f < 2157840 →
      (timecode_from_frame (f : ℚ) (5994/100) true).bind
        (fun str => frame_from_timecode str (5994/100) (some true)) = .ok (f : ℤ)) ∧
    (∀ fps : ℚ, ∀ F : ℤ, pyRound fps = F → 0 < F → F ≤ 100 →
      ∀ h m s fr : ℕ, h < 100 → m < 60 → s < 60 → (fr : ℤ) < F →
      (frame_from_timecode
          ⟨pad2 (h : ℤ) ++ ':' :: pad2 (m : ℤ) ++ ':' :: pad2 (s : ℤ) ++ ':' :: pad2 (fr : ℤ)⟩
          fps (some false)).bind
        (fun n => timecode_from_frame (n : ℚ) fps false) =
        .ok ⟨pad2 (h : ℤ) ++ ':' :: pad2 (m : ℤ) ++ ':' :: pad2 (s : ℤ) ++ ':' ::
          pad2 (fr : ℤ)⟩) ∧
    (∀ h m s fr : ℕ, h < 100 → m < 60 → s < 60 → fr < 30 →
      (s = 0 → m % 10 ≠ 0 → 2 ≤ fr) →
      (frame_from_timecode
          ⟨pad2 (h : ℤ) ++ ':' :: pad2 (m : ℤ) ++ ':' :: pad2 (s : ℤ) ++ ';' :: pad2 (fr : ℤ)⟩
          (2997/100) (some true)).bind
        (fun n => timecode_from_frame (n : ℚ) (2997/100) true) =
        .ok ⟨pad2 (h : ℤ) ++ ':' :: pad2 (m : ℤ) ++ ':' :: pad2 (s : ℤ) ++ ';' ::
          pad2 (fr : ℤ)⟩) ∧
    (∀ h m s fr : ℕ, h < 100 → m < 60 → s < 60 → fr < 60 →
      (s = 0 → m % 10 ≠ 0 → 4 ≤ fr) →
      (frame_from_timecode
          ⟨pad2 (h : ℤ) ++ ':' :: pad2 (m : ℤ) ++ ':' :: pad2 (s : ℤ) ++ ';' :: pad2 (fr : ℤ)⟩
          (5994/100) (some true)).bind
        (fun n => timecode_from_frame (n : ℚ) (5994/100) true) =
        .ok ⟨pad2 (h : ℤ) ++ ':' :: pad2 (m : ℤ) ++ ':' :: pad2 (s : ℤ) ++ ';' ::
          pad2 (fr : ℤ)⟩) :=
  ⟨roundtrip_frame_ndf, roundtrip_frame_df2997, roundtrip_frame_df5994,
    roundtrip_tc_ndf, roundtrip_tc_df2997, roundtrip_tc_df5994⟩

/-- Witness for C1 at concrete inputs: frame 86399 at 24 fps non-drop, frame
1800 at 29.97 drop frame, frame 3600 at 59.94 drop frame, and the timecode
`01:23:45:12` at 24 fps. -/
theorem claim_C1_roundtrip_witness :
    (timecode_from_frame ((86399 : ℕ) : ℚ) 24 false).bind
      (fun str => frame_from_timecode str 24 (some false)) = .ok ((86399 : ℕ) : ℤ) ∧
    (timecode_from_frame ((1800 : ℕ) : ℚ) (2997/100) true).bind
      (fun str => frame_from_timecode str (2997/100) (some true)) = .ok ((1800 : ℕ) : ℤ) ∧
    (timecode_from_frame ((3600 : ℕ) : ℚ) (5994/100) true).bind
      (fun str => frame_from_timecode str (5994/100) (some true)) = .ok ((3600 : ℕ) : ℤ) ∧
    (frame_from_timecode
        ⟨pad2 ((1 : ℕ) : ℤ) ++ ':' :: pad2 ((23 : ℕ) : ℤ) ++ ':' :: pad2 ((45 : ℕ) : ℤ) ++
          ':' :: pad2 ((12 : ℕ) : ℤ)⟩ 24 (some false)).bind
      (fun n => timecode_from_frame (n : ℚ) 24 false) =
      .ok ⟨pad2 ((1 : ℕ) : ℤ) ++ ':' :: pad2 ((23 : ℕ) : ℤ) ++ ':' :: pad2 ((45 : ℕ) : ℤ) ++
        ':' :: pad2 ((12 : ℕ) : ℤ)⟩ :=
  ⟨claim_C1_roundtrip.1 24 24 pyRound_24 (by norm_num) (by norm_num) 86399 (by norm_num),
   claim_C1_roundtrip.2.1 1800 (by norm_num),
   claim_C1_roundtrip.2.2.1 3600 (by norm_num),
   claim_C1_roundtrip.2.2.2.1 24 24 pyRound_24 (by norm_num) (by norm_num) 1 23 45 12
     (by norm_num) (by norm_num) (by norm_num) (by norm_num)⟩

/-- C2: drop-frame boundary correctness of `timecode_from_frame`: frames
1799, 1800, 17980, 17981 and 17982 at 29.97 fps, and frame 3600 at
59.94 fps, render to the documented boundary timecodes. -/
theorem claim_C2_drop_frame_boundaries :
    timecode_from_frame ((1799 : ℤ) : ℚ) (2997/100) true = .ok "00:00:59;29" ∧
    timecode_from_frame ((1800 : ℤ) : ℚ) (2997/100) true = .ok "00:01:00;02" ∧
    timecode_from_frame ((17982 : ℤ) : ℚ) (2997/100) true = .ok "00:10:00;00" ∧
    timecode_from_frame ((17980 : ℤ) : ℚ) (2997/100) true = .ok "00:09:59;28" ∧
    timecode_from_frame ((17981 : ℤ) : ℚ) (2997/100) true = .ok "00:09:59;29" ∧
    timecode_from_frame ((3600 : ℤ) : ℚ) (5994/100) true = .ok "00:01:00;04" := by
  refine ⟨?_, ?_, ?_, ?_, ?_, ?_⟩
  · rw [timecode_from_frame_df2997]; rfl
  · rw [timecode_from_frame_df2997]; rfl
  · rw [timecode_from_frame_df2997]; rfl
  · rw [timecode_from_frame_df2997]; rfl
  · rw [timecode_from_frame_df2997]; rfl
  · rw [timecode_from_frame_df5994]; rfl

/-- C6: drop-frame reconciliation.  Whenever delimiter detection succeeds
with value `d`: an unset request returns `d`; an explicit `False` request
conflicts with a detected drop-frame delimiter and fails with the
conflicting-drop-frame error (and is accepted when the delimiter is
non-drop); an explicit `True` request is accepted even when the delimiter
does not indicate drop frame.  In particular constructing a `Timecode` from
`"01:00:00;12"` with `drop_frame=False` fails with the conflicting-drop-frame
error. -/
theorem claim_C6_reconcile_drop_frame :
    (∀ (s : String) (d : Bool), str_is_drop_frame s = .ok d →
      compute_drop_frame_setting s none = .ok d ∧
      (d = true → compute_drop_frame_setting s (some false) = .error .badDropFrame) ∧
      (d = false → compute_drop_frame_setting s (some false) = .ok false) ∧
      compute_drop_frame_setting s (some true) = .ok true) ∧
    Timecode.make "01:00:00;12" 24 (some false) false = .error .badDropFrame := by
  constructor
  · intro s d hd
    unfold compute_drop_frame_setting
    rw [hd]
    refine ⟨rfl, ?_, ?_, rfl⟩
    · rintro rfl
      rfl
    · rintro rfl
      rfl
  · rfl

/-- Witness for C6 at the spec's example string `"01:00:00;12"` (detected
drop-frame `true`). -/
theorem claim_C6_reconcile_drop_frame_witness :
    str_is_drop_frame "01:00:00;12" = .ok true ∧
    compute_drop_frame_setting "01:00:00;12" none = .ok true ∧
    compute_drop_frame_setting "01:00:00;12" (some false) = .error .badDropFrame ∧
    compute_drop_frame_setting "01:00:00;12" (some true) = .ok true := by
  have h : str_is_drop_frame "01:00:00;12" = .ok true := rfl
  obtain ⟨h1, h2, _, h4⟩ := claim_C6_reconcile_drop_frame.1 "01:00:00;12" true h
  exact ⟨h, h1, h2 rfl, h4⟩

/-- C10: subtraction below frame zero does not fail.  For a non-drop
`Timecode` at 24 fps and an integer `n` making `to_frame() - n` negative but
within one wrap (less than `86400 = 24*3600` frames, the point at which the
negative hours field would break the rendered string), `t - n` raises no
error and returns a `Timecode` whose frame number is the negative result
wrapped by 86400 — e.g. frame `-1` yields `00:59:59:23`, i.e. frame 86399. -/
theorem claim_C10_sub_below_zero (t : Timecode) (hfps : t._fps = 24)
    (hdf : t._drop_frame = some false) (n : ℤ) (hneg : t.to_frame - n < 0)
    (hsmall : -86400 < t.to_frame - n) :
    ∃ t2 : Timecode, t.sub_int n = .ok t2 ∧
      t2.to_frame = t.to_frame - n + 86400 ∧ t2._drop_frame = some false := by
  set f : ℤ := t.to_frame - n with hf
  unfold Timecode.sub_int Timecode.from_frame
  rw [hfps, hdf, ← hf]
  rw [show (some false == some true) = false from rfl]
  rw [timecode_from_frame_ndf f 24 24 pyRound_24 (by norm_num)]
  simp only [Bind.bind, Except.bind]
  have hH : f.tdiv (3600 * 24) = ((0 : ℕ) : ℤ) := by
    have h1 : f.tdiv (3600 * 24) = -((-f).tdiv (3600 * 24)) := by
      rw [← Int.neg_tdiv, neg_neg]
    rw [h1, Int.tdiv_eq_ediv (by omega) (by norm_num)]
    have : (-f) / (3600 * 24) = 0 := Int.ediv_eq_zero_of_lt (by omega) (by omega)
    rw [this]
    norm_num
  obtain ⟨M, hM⟩ : ∃ M : ℕ, (M : ℤ) = f / (60 * 24) % 60 :=
    ⟨(f / (60 * 24) % 60).toNat, Int.toNat_of_nonneg (Int.emod_nonneg _ (by norm_num))⟩
  obtain ⟨S, hS⟩ : ∃ S : ℕ, (S : ℤ) = f / 24 % 60 :=
    ⟨(f / 24 % 60).toNat, Int.toNat_of_nonneg (Int.emod_nonneg _ (by norm_num))⟩
  obtain ⟨R, hR⟩ : ∃ R : ℕ, (R : ℤ) = f % 24 :=
    ⟨(f % 24).toNat, Int.toNat_of_nonneg (Int.emod_nonneg _ (by norm_num))⟩
  have hMb : M ≤ 59 := by
    have := Int.emod_lt_of_pos (f / (60 * 24)) (show (0:ℤ) < 60 by norm_num)
    omega
  have hSb : S ≤ 59 := by
    have := Int.emod_lt_of_pos (f / 24) (show (0:ℤ) < 60 by norm_num)
    omega
  have hRb : R ≤ 23 := by
    have := Int.emod_lt_of_pos f (show (0:ℤ) < 24 by norm_num)
    omega
  rw [hH, ← hM, ← hS, ← hR,
    make_render_ndf 0 M S R 24 (some false) (Or.inl rfl) (by norm_num) hMb hSb
      (by omega) (by exact_mod_cast (by omega : (R : ℤ) < 24))]
  refine ⟨_, rfl, ?_, rfl⟩
  show frame_from_timecode_tuple 0 M S R 24 (some false) = f + 86400
  unfold frame_from_timecode_tuple frame_from_timecode_core
  rw [show (some false == some true) = false from rfl]
  simp only [Bool.false_eq_true, if_false, pyRound_24]
  have c1 : f / (60 * 24) / 60 = f / (3600 * 24) := by
    rw [ediv_ediv f (60 * 24) 60 (by norm_num) (by norm_num)]
    norm_num
  have c2 : f / 24 / 60 = f / (60 * 24) := by
    rw [ediv_ediv f 24 60 (by norm_num) (by norm_num)]
    norm_num
  have hHneg : f / (3600 * 24) = -1 := by
    have h0 : (3600 * 24 : ℤ) = 86400 := by norm_num
    rw [h0]
    omega
  omega

/-- Witness for C10: `00:00:00:00` minus one frame at 24 fps wraps to frame
86399, i.e. `00:59:59:23`. -/
theorem claim_C10_sub_below_zero_witness :
    Timecode.make "00:00:00:00" 24 none false =
      .ok ⟨0, 0, 0, 0, 24, some false⟩ ∧
    ∃ t2 : Timecode, Timecode.sub_int ⟨0, 0, 0, 0, 24, some false⟩ 1 = .ok t2 ∧
      t2.to_frame = 86399 ∧ t2._drop_frame = some false := by
  refine ⟨rfl, ?_⟩
  have h0 : Timecode.to_frame ⟨0, 0, 0, 0, 24, some false⟩ = 0 := by
    unfold Timecode.to_frame frame_from_timecode_tuple frame_from_timecode_core
    rw [pyRound_24]
    norm_num
  have h := claim_C10_sub_below_zero ⟨0, 0, 0, 0, 24, some false⟩ rfl rfl 1
    (by rw [h0]; norm_num) (by rw [h0]; norm_num)
  rw [h0] at h
  obtain ⟨t2, he, hv, hd⟩ := h
  exact ⟨t2, he, by rw [hv]; norm_num, hd⟩

/-- C3 (evaluation at the failing inputs): `parse_timecode`'s own docstring
lists `00;12;34;56` as a supported drop-frame variation and describes the
split as "by any non-alphanumeric character", but the compiled pattern
`(\d{2,3}):(\d{2}):(\d{2})[:;\.,](\d{2})` requires the first two delimiters
to be colons and the third to be one of `:;.,` — so `00;12;34;56` and
`00-00-00-00` raise `ValueError`.  The pattern is also unanchored at the end,
so a string with a three-digit frames group parses by silently dropping the
trailing digit instead of failing. -/
theorem claim_C3_parse_timecode_divergence :
    parse_timecode "00;12;34;56" = .error .valueError ∧
    parse_timecode "00:12:34;56" = .ok (0, 12, 34, 56) ∧
    parse_timecode "00-00-00-00" = .error .valueError ∧
    parse_timecode "00:00:00:004" = .ok (0, 0, 0, 0) := by
  exact ⟨rfl, rfl, rfl, rfl⟩

/-- `Decimal(1) / Decimal(24)` under the default 28-digit context: the
28-significant-digit half-even rounding of `1/24`, not the exact rational. -/
theorem decimal_div_1_24 :
    decimal_div 1 24 = (4166666666666666666666666667 : ℚ) * (10:ℚ) ^ (-(29:ℤ)) := by
  have d1 : numDigits 24 = 2 := rfl
  have d2 : numDigits 1 = 1 := rfl
  unfold decimal_div
  rw [if_neg (by norm_num)]
  rw [d1, d2]
  norm_num
  rw [show Int.toNat 30 = 30 from rfl]
  rw [show (10:ℕ) ^ 30 % 24 = 16 from by norm_num]
  rw [if_neg (by norm_num)]
  rw [show (10:ℕ) ^ 30 / 24 = 41666666666666666666666666666 from by norm_num]
  rw [if_neg (by norm_num)]
  unfold decRound
  rw [show numDigits 41666666666666666666666666666 = 29 from rfl]
  rw [if_neg (by norm_num)]
  norm_num

/-- C7 (evaluation at the failing input): `to_seconds` is *not* the exact
rational `frame_count / fps` at every supported rate.  At the fractional
rates the stored fps is a Python float and `Decimal(frame) / float` raises
`TypeError`, so `Timecode("00:00:01;00", fps=29.97, drop_frame=True)
.to_seconds()` fails outright; and even at integer rates the `Decimal`
division is rounded to 28 significant digits, so one frame at 24 fps gives
`0.04166666666666666666666666667`, which differs from `1/24`. -/
theorem claim_C7_to_seconds_divergence :
    Timecode.make "00:00:01;00" (2997/100) (some true) false =
      .ok ⟨0, 0, 1, 0, 2997/100, some true⟩ ∧
    Timecode.to_seconds ⟨0, 0, 1, 0, 2997/100, some true⟩ = .error .typeError ∧
    Timecode.make "00:00:00:01" 24 none false = .ok ⟨0, 0, 0, 1, 24, some false⟩ ∧
    Timecode.to_seconds ⟨0, 0, 0, 1, 24, some false⟩ =
      .ok ((4166666666666666666666666667 : ℚ) * (10:ℚ) ^ (-(29:ℤ))) ∧
    (4166666666666666666666666667 : ℚ) * (10:ℚ) ^ (-(29:ℤ)) ≠ 1 / 24 := by
  refine ⟨?_, ?_, ?_, ?_, ?_⟩
  · rw [show "00:00:01;00" = (⟨pad2 ((0:ℕ) : ℤ) ++ ':' :: pad2 ((0:ℕ) : ℤ) ++ ':' ::
      pad2 ((1:ℕ) : ℤ) ++ ';' :: pad2 ((0:ℕ) : ℤ)⟩ : String) from rfl]
    exact make_render_df 0 0 1 0 (2997/100) (some true) (Or.inl rfl) mem_VALID_2997
      (by norm_num) (by norm_num) (by norm_num) (by norm_num) (by norm_num)
  · unfold Timecode.to_seconds
    rw [if_neg (by norm_num)]
  · rw [show "00:00:00:01" = (⟨pad2 ((0:ℕ) : ℤ) ++ ':' :: pad2 ((0:ℕ) : ℤ) ++ ':' ::
      pad2 ((0:ℕ) : ℤ) ++ ':' :: pad2 ((1:ℕ) : ℤ)⟩ : String) from rfl]
    exact make_render_ndf 0 0 0 1 24 none (Or.inr rfl) (by norm_num) (by norm_num)
      (by norm_num) (by norm_num) (by norm_num)
  · unfold Timecode.to_seconds
    rw [if_pos (by norm_num)]
    have hf : Timecode.to_frame ⟨0, 0, 0, 1, 24, some false⟩ = 1 := by
      unfold Timecode.to_frame frame_from_timecode_tuple frame_from_timecode_core
      rw [pyRound_24]
      norm_num
    rw [hf]
    rw [if_neg (by norm_num)]
    rw [show ((24:ℚ).num.toNat) = 24 from rfl, show (1 : ℤ).toNat = 1 from rfl]
    rw [decimal_div_1_24]
  · intro h
    rw [zpow_neg, ← div_eq_mul_inv] at h
    have h2 : (4166666666666666666666666667 : ℚ) * 24 = (10:ℚ) ^ (29:ℤ) := by
      field_simp at h
      linarith [h]
    norm_num at h2

/-- `to_frame` of a non-drop 24 fps `Timecode` in closed form. -/
theorem to_frame_ndf_24 (h m s fr : ℕ) :
    Timecode.to_frame ⟨h, m, s, fr, 24, some false⟩ =
      86400 * h + 1440 * m + 24 * s + fr := by
  unfold Timecode.to_frame frame_from_timecode_tuple frame_from_timecode_core
  rw [show (some false == some true) = false from rfl]
  simp only [Bool.false_eq_true, if_false, pyRound_24]
  push_cast
  ring

/-- C9 (counterexample to the metadata round-trip): the claim's "setting a
non-reserved name succeeds, is stored in the metadata map without touching
core fields, and is retrievable afterward via attribute access" fails on two
kinds of non-reserved names.  `"fps"` is not in `__protected`, so the write
is accepted and stored, but `fps` is a class property and attribute access
never reaches `__getattr__` — the stored value is not retrievable and the
property keeps returning the event's frame rate.  `"_fps"` is missing from
`__mine`, so the write lands in `_meta_data["_fps"]`, which is exactly the
storage every fps read consults — the write changes the event's effective
frame rate instead of staying clear of core fields. -/
theorem claim_C9_counterexample :
    ("fps" ∉ PROTECTED ∧ "fps" ∉ MINE) ∧
    (∃ e2 : EditEvent,
      EditEvent.setattr_meta
        ⟨[], [], [("_drop_frame", .mbool false), ("_fps", .mrat 24)], none,
          24, some false, 1, "R1", "V",
          ⟨0, 0, 0, 0, 24, some false⟩, ⟨0, 0, 0, 0, 24, some false⟩,
          ⟨0, 0, 0, 0, 24, some false⟩, ⟨0, 0, 0, 0, 24, some false⟩⟩
        "fps" (.mstr "custom") = .ok e2 ∧
      e2._meta_data.lookup "fps" = some (.mstr "custom") ∧
      "fps" ∈ EDIT_EVENT_CLASS_ATTRS ∧
      attr_reaches_getattr "fps" = false ∧
      e2._fps = 24) ∧
    ("_fps" ∉ PROTECTED ∧ "_fps" ∉ MINE) ∧
    (∃ e3 : EditEvent,
      EditEvent.setattr_meta
        ⟨[], [], [("_drop_frame", .mbool false), ("_fps", .mrat 24)], none,
          24, some false, 1, "R1", "V",
          ⟨0, 0, 0, 0, 24, some false⟩, ⟨0, 0, 0, 0, 24, some false⟩,
          ⟨0, 0, 0, 0, 24, some false⟩, ⟨0, 0, 0, 0, 24, some false⟩⟩
        "_fps" (.mrat 60) = .ok e3 ∧
      e3._meta_data.lookup "_fps" = some (.mrat 60) ∧
      e3._fps = 60 ∧
      ¬ (60 : ℚ) = 24) := by
  refine ⟨⟨by decide, by decide⟩, ⟨_, rfl, rfl, by decide, by decide, rfl⟩,
    ⟨by decide, by decide⟩, ⟨_, rfl, rfl, rfl, by norm_num⟩⟩

/-- C9 (amended): reserved-attribute protection on `EditEvent`.  Setting any
name of the `__protected` list (in particular `comments`) through
`__setattr__` raises `AttributeError`.  A name with no leading underscore
that is neither protected nor a class attribute lands in the metadata
dictionary, is the kind of name on which attribute access reaches
`__getattr__` (so it is retrievable afterward), and leaves every real
attribute — including the `"_fps"`/`"_drop_frame"` entries behind the
fps/drop-frame reads — untouched.  Names that are class properties/methods
are stored but shadowed on read, and writes to `"_fps"`/`"_drop_frame"`
change the event's effective rate — see the counterexample. -/
theorem claim_C9_reserved_attributes :
    (∀ (e : EditEvent) (v : MetaVal),
      e.setattr_meta "comments" v = .error .attributeError) ∧
    (∀ (e : EditEvent) (name : String) (v : MetaVal), name ∈ PROTECTED →
      e.setattr_meta name v = .error .attributeError) ∧
    (∀ (e : EditEvent) (name : String) (v : MetaVal),
      startsWithUnderscore name = false →
      name ∉ PROTECTED → name ∉ EDIT_EVENT_CLASS_ATTRS →
      ∃ e2 : EditEvent, e.setattr_meta name v = .ok e2 ∧
        attr_reaches_getattr name = true ∧
        e2.getattr_meta name = .ok v ∧
        e2._meta_data = (name, v) :: e._meta_data ∧
        e2._meta_data.lookup "_fps" = e._meta_data.lookup "_fps" ∧
        e2._meta_data.lookup "_drop_frame" = e._meta_data.lookup "_drop_frame" ∧
        e2._effects = e._effects ∧ e2._comments = e._comments ∧
        e2._retime = e._retime ∧ e2._id = e._id ∧ e2._reel = e._reel ∧
        e2._channels = e._channels ∧ e2._source_in = e._source_in ∧
        e2._source_out = e._source_out ∧ e2._record_in = e._record_in ∧
        e2._record_out = e._record_out ∧ e2._fps = e._fps ∧
        e2._drop_frame = e._drop_frame) := by
  refine ⟨?_, ?_, ?_⟩
  · intro e v
    unfold EditEvent.setattr_meta
    rw [if_pos (by decide)]
  · intro e name v hp
    unfold EditEvent.setattr_meta
    rw [if_pos hp]
  · intro e name v hnu hp hca
    have hmine : name ∉ MINE := by
      intro hm
      have hu : startsWithUnderscore name = true := by
        simp only [MINE, List.mem_cons, List.not_mem_nil, or_false] at hm
        rcases hm with rfl | rfl | rfl | rfl | rfl | rfl | rfl | rfl | rfl |
          rfl | rfl <;> rfl
      rw [hu] at hnu
      cases hnu
    have hfps : ¬ name = "_fps" := by
      intro h
      rw [h] at hnu
      cases hnu
    have hdf : ¬ name = "_drop_frame" := by
      intro h
      rw [h] at hnu
      cases hnu
    unfold EditEvent.setattr_meta
    rw [if_neg hp, if_neg hmine]
    dsimp only
    rw [if_neg hfps, if_neg hdf]
    have hbfps : ("_fps" == name) = false := by
      simp only [beq_eq_false_iff_ne, ne_eq]
      intro h
      exact hfps h.symm
    have hbdf : ("_drop_frame" == name) = false := by
      simp only [beq_eq_false_iff_ne, ne_eq]
      intro h
      exact hdf h.symm
    refine ⟨_, rfl, ?_, ?_, rfl, ?_, ?_, rfl, rfl, rfl, rfl, rfl, rfl, rfl,
      rfl, rfl, rfl, rfl, rfl⟩
    · simp only [attr_reaches_getattr, Bool.and_eq_true, Bool.not_eq_true']
      constructor
      · simpa using hca
      · simpa using hmine
    · unfold EditEvent.getattr_meta
      simp [List.lookup]
    · simp [List.lookup, hbfps]
    · simp [List.lookup, hbdf]

/-- Witness for C9: the protected name `comments` is refused; the fresh
non-underscore name `shot` (not a class attribute) is stored, reaches
`__getattr__` on read, is read back, and leaves the fps entry alone. -/
theorem claim_C9_reserved_attributes_witness :
    (EditEvent.setattr_meta
        ⟨[], [], [("_drop_frame", .mbool false), ("_fps", .mrat 24)], none,
          24, some false, 1, "R1", "V",
          ⟨0, 0, 0, 0, 24, some false⟩, ⟨0, 0, 0, 0, 24, some false⟩,
          ⟨0, 0, 0, 0, 24, some false⟩, ⟨0, 0, 0, 0, 24, some false⟩⟩
        "comments" (.mstr "x") = .error .attributeError) ∧
    (∃ e2 : EditEvent,
      EditEvent.setattr_meta
        ⟨[], [], [("_drop_frame", .mbool false), ("_fps", .mrat 24)], none,
          24, some false, 1, "R1", "V",
          ⟨0, 0, 0, 0, 24, some false⟩, ⟨0, 0, 0, 0, 24, some false⟩,
          ⟨0, 0, 0, 0, 24, some false⟩, ⟨0, 0, 0, 0, 24, some false⟩⟩
        "shot" (.mstr "0010") = .ok e2 ∧
      attr_reaches_getattr "shot" = true ∧
      e2.getattr_meta "shot" = .ok (.mstr "0010") ∧
      e2._meta_data.lookup "_fps" = some (.mrat 24) ∧
      e2._comments = [] ∧ e2._fps = 24) := by
  obtain ⟨h1, _, h3⟩ := claim_C9_reserved_attributes
  refine ⟨h1 _ (.mstr "x"), ?_⟩
  obtain ⟨e2, ha, hr, hb, hc, hlf, _, _, hcm, _, _, _, _, _, _, _, _, hfps, _⟩ :=
    h3
    ⟨[], [], [("_drop_frame", .mbool false), ("_fps", .mrat 24)], none,
      24, some false, 1, "R1", "V",
      ⟨0, 0, 0, 0, 24, some false⟩, ⟨0, 0, 0, 0, 24, some false⟩,
      ⟨0, 0, 0, 0, 24, some false⟩, ⟨0, 0, 0, 0, 24, some false⟩⟩
    "shot" (.mstr "0010") (by decide) (by decide) (by decide)
  refine ⟨e2, ha, hr, hb, ?_, hcm, by rw [hfps]⟩
  rw [hlf]
  rfl

/-- C5 (counterexample to the clamping sentence): for a reverse retime whose
re-derived source-in would go negative, the *intermediate* value is clamped to
0 and the warning is appended, but the event's source-in is then set to the
clamped value plus one, i.e. frame 1 — not frame 0 as the claim states.
Concretely: speed -50.0 at 24 fps over a 48-frame record duration gives
source_duration -100; retime source-in 00:00:01:00 (frame 24) yields
24 - 100 = -76 < 0, a "76 frames short" warning, and a final source-in of
00:00:00:01 = frame 1. -/
theorem claim_C5_counterexample :
    ∃ e2 : EditEvent,
      EditEvent.add_retime
        ⟨[], [], [("_drop_frame", .mbool false), ("_fps", .mrat 24)],
          none, 24, some false, 2, "REEL1", "V",
          ⟨0, 0, 1, 0, 24, some false⟩, ⟨0, 0, 3, 0, 24, some false⟩,
          ⟨1, 0, 0, 0, 24, some false⟩, ⟨1, 0, 2, 0, 24, some false⟩⟩
        ["M2", "REEL1", "-50.0", "00:00:01:00"] = .ok e2 ∧
      e2._source_in.to_frame = 1 ∧ e2._source_in.to_frame ≠ 0 ∧
      e2._retime.map Retime.comment = some
        "Reverse motion (-50.0 fps , record dur 48) Warn: source is 76 frames short!" := by
  refine ⟨⟨[], [], [("_drop_frame", .mbool false), ("_fps", .mrat 24)],
    some ⟨["M2", "REEL1", "-50.0", "00:00:01:00"], ⟨0, 0, 1, 0, 24, some false⟩, "-50.0",
      "Reverse motion (-50.0 fps , record dur 48) Warn: source is 76 frames short!"⟩,
    24, some false, 2, "REEL1", "V", ⟨0, 0, 0, 1, 24, some false⟩,
    ⟨0, 0, 3, 0, 24, some false⟩, ⟨1, 0, 0, 0, 24, some false⟩,
    ⟨1, 0, 2, 0, 24, some false⟩⟩, ?_, ?_, ?_, ?_⟩
  · unfold EditEvent.add_retime
    dsimp only
    have hrd : Timecode.to_frame ⟨1, 0, 2, 0, 24, some false⟩ -
        Timecode.to_frame ⟨1, 0, 0, 0, 24, some false⟩ = 48 := by
      rw [to_frame_ndf_24, to_frame_ndf_24]; norm_num
    rw [hrd]
    rw [show pyIndex ["M2", "REEL1", "-50.0", "00:00:01:00"] 3 =
      Except.ok "00:00:01:00" from rfl]
    simp only [Bind.bind, Except.bind]
    rw [show Timecode.make "00:00:01:00" 24 (some false) true =
      Except.ok ⟨0, 0, 1, 0, 24, some false⟩ from rfl]
    rw [show pyIndex ["M2", "REEL1", "-50.0", "00:00:01:00"] 2 =
      Except.ok "-50.0" from rfl]
    dsimp only
    have hfl : pyFloatQ "-50.0" = Except.ok (-50 : ℚ) := by
      rw [show pyFloatQ "-50.0" = Except.ok (-(((500 : ℕ) : ℚ) / 10 ^ 1)) from rfl]
      exact congrArg _ (by norm_num)
    rw [hfl]
    dsimp only
    have h24 : Timecode.to_frame ⟨0, 0, 1, 0, 24, some false⟩ = 24 := by
      rw [to_frame_ndf_24]; norm_num
    rw [h24]
    rw [if_pos (show (-50 : ℚ) / 24 * ((48 : ℤ) : ℚ) < 0 from by norm_num)]
    rw [if_pos (show ((24 : ℤ) : ℚ) + (-50 : ℚ) / 24 * ((48 : ℤ) : ℚ) < 0 from by norm_num)]
    rw [if_pos (show ((24 : ℤ) : ℚ) + (-50 : ℚ) / 24 * ((48 : ℤ) : ℚ) < 0 from by norm_num)]
    rw [if_neg (show ¬ |(-50 : ℚ)| < 1 / 10000 from by norm_num)]
    rw [if_pos (show (-50 : ℚ) < 0 from by norm_num)]
    rw [show |((24 : ℤ) : ℚ) + (-50 : ℚ) / 24 * ((48 : ℤ) : ℚ)| = ((76 : ℤ) : ℚ) from by
      norm_num]
    rw [truncQ_intCast]
    unfold Timecode.from_frame
    rw [show ((0 : ℚ) + 1) = (((1 : ℤ)) : ℚ) from by norm_num]
    rw [show ((some false == some true) : Bool) = false from rfl]
    rw [timecode_from_frame_ndf 1 24 24 pyRound_24 (by norm_num)]
    simp only [Bind.bind, Except.bind]
    rw [show ({ data := pad2 (Int.tdiv 1 (3600 * 24)) ++ ':' :: pad2 (1 / (60 * 24) % 60) ++
        ':' :: pad2 (1 / 24 % 60) ++ ':' :: pad2 (1 % 24) } : String) = "00:00:00:01" from
      by decide]
    rw [show Timecode.make "00:00:00:01" 24 (some false) false =
      Except.ok ⟨0, 0, 0, 1, 24, some false⟩ from rfl]
    rfl
  · rw [to_frame_ndf_24]
    norm_num
  · rw [to_frame_ndf_24]
    norm_num
  · rfl

/-- C5 (amended): reverse-motion retime source re-derivation.  On an M2 line
with speed < 0 (and magnitude at least the freeze-frame threshold 0.0001) and
negative `source_duration = speed/fps * record_duration`, the retime is
recorded with a "Reverse motion" comment; the intermediate
`retime_source_in + source_duration` is clamped to 0 when negative, in which
case a warning noting the shortfall (`int(abs(...))` frames) is appended to
the comment; the event's source-in is then rebuilt from the clamped value
*plus one frame* in every case — so the clamped case lands on frame 1, not
frame 0 as the original claim says. -/
theorem claim_C5_reverse_retime (e : EditEvent) (tokens : List String)
    (t2 t3 : String) (h3 : pyIndex tokens 3 = .ok t3) (h2 : pyIndex tokens 2 = .ok t2)
    (rtc : Timecode) (hrtc : Timecode.make t3 e._fps e._drop_frame true = .ok rtc)
    (speed : ℚ) (hsp : pyFloatQ t2 = .ok speed)
    (hmag : ¬ |speed| < 1 / 10000) (hneg : speed < 0)
    (hsd : speed / e._fps *
      ((e._record_out.to_frame - e._record_in.to_frame : ℤ) : ℚ) < 0) :
    (∀ err, Timecode.from_frame
        ((if (rtc.to_frame : ℚ) + speed / e._fps *
              ((e._record_out.to_frame - e._record_in.to_frame : ℤ) : ℚ) < 0 then 0
          else (rtc.to_frame : ℚ) + speed / e._fps *
              ((e._record_out.to_frame - e._record_in.to_frame : ℤ) : ℚ)) + 1)
        e._fps e._drop_frame = .error err →
      EditEvent.add_retime e tokens = .error err) ∧
    (∀ si, Timecode.from_frame
        ((if (rtc.to_frame : ℚ) + speed / e._fps *
              ((e._record_out.to_frame - e._record_in.to_frame : ℤ) : ℚ) < 0 then 0
          else (rtc.to_frame : ℚ) + speed / e._fps *
              ((e._record_out.to_frame - e._record_in.to_frame : ℤ) : ℚ)) + 1)
        e._fps e._drop_frame = .ok si →
      EditEvent.add_retime e tokens = .ok { e with
        _retime := some ⟨tokens, rtc, t2,
          (if (rtc.to_frame : ℚ) + speed / e._fps *
                ((e._record_out.to_frame - e._record_in.to_frame : ℤ) : ℚ) < 0 then
            "Reverse motion (" ++ t2 ++ " fps , record dur " ++
                ⟨intStr (e._record_out.to_frame - e._record_in.to_frame)⟩ ++ ")" ++
              " Warn: source is " ++
              ⟨intStr (truncQ |(rtc.to_frame : ℚ) + speed / e._fps *
                ((e._record_out.to_frame - e._record_in.to_frame : ℤ) : ℚ)|)⟩ ++
              " frames short!"
          else
            "Reverse motion (" ++ t2 ++ " fps , record dur " ++
              ⟨intStr (e._record_out.to_frame - e._record_in.to_frame)⟩ ++ ")")⟩
        _source_in := si }) := by
  unfold EditEvent.add_retime
  rw [h3]
  simp only [Bind.bind, Except.bind]
  rw [hrtc, h2]
  dsimp only
  rw [hsp]
  dsimp only
  rw [if_neg hmag, if_pos hneg, if_pos hsd]
  constructor
  · intro err herr
    rw [herr]
  · intro si hsi
    rw [hsi]

/-- Witness for C5 at the counterexample's input: the amended theorem applied
to the concrete reverse retime evaluates the full `add_retime` result. -/
theorem claim_C5_reverse_retime_witness :
    EditEvent.add_retime
        ⟨[], [], [("_drop_frame", .mbool false), ("_fps", .mrat 24)],
          none, 24, some false, 2, "REEL1", "V",
          ⟨0, 0, 1, 0, 24, some false⟩, ⟨0, 0, 3, 0, 24, some false⟩,
          ⟨1, 0, 0, 0, 24, some false⟩, ⟨1, 0, 2, 0, 24, some false⟩⟩
        ["M2", "REEL1", "-50.0", "00:00:01:00"] =
      .ok ⟨[], [], [("_drop_frame", .mbool false), ("_fps", .mrat 24)],
        some ⟨["M2", "REEL1", "-50.0", "00:00:01:00"], ⟨0, 0, 1, 0, 24, some false⟩,
          "-50.0",
          "Reverse motion (-50.0 fps , record dur 48) Warn: source is 76 frames short!"⟩,
        24, some false, 2, "REEL1", "V", ⟨0, 0, 0, 1, 24, some false⟩,
        ⟨0, 0, 3, 0, 24, some false⟩, ⟨1, 0, 0, 0, 24, some false⟩,
        ⟨1, 0, 2, 0, 24, some false⟩⟩ := by
  have hfl : pyFloatQ "-50.0" = Except.ok (-50 : ℚ) := by
    rw [show pyFloatQ "-50.0" = Except.ok (-(((500 : ℕ) : ℚ) / 10 ^ 1)) from rfl]
    exact congrArg _ (by norm_num)
  have h := (claim_C5_reverse_retime
    ⟨[], [], [("_drop_frame", .mbool false), ("_fps", .mrat 24)],
          none, 24, some false, 2, "REEL1", "V",
      ⟨0, 0, 1, 0, 24, some false⟩, ⟨0, 0, 3, 0, 24, some false⟩,
      ⟨1, 0, 0, 0, 24, some false⟩, ⟨1, 0, 2, 0, 24, some false⟩⟩
    ["M2", "REEL1", "-50.0", "00:00:01:00"] "-50.0" "00:00:01:00" rfl rfl
    ⟨0, 0, 1, 0, 24, some false⟩ rfl (-50) hfl (by norm_num) (by norm_num)
    (by norm_num [to_frame_ndf_24])).2 ⟨0, 0, 0, 1, 24, some false⟩ ?hff
  case hff =>
    rw [if_pos (by norm_num [to_frame_ndf_24])]
    unfold Timecode.from_frame
    rw [show ((0 : ℚ) + 1) = (((1 : ℤ)) : ℚ) from by norm_num]
    rw [show ((some false == some true) : Bool) = false from rfl]
    rw [timecode_from_frame_ndf 1 24 24 pyRound_24 (by norm_num)]
    simp only [Bind.bind, Except.bind]
    rw [show ({ data := pad2 (Int.tdiv 1 (3600 * 24)) ++ ':' :: pad2 (1 / (60 * 24) % 60) ++
        ':' :: pad2 (1 / 24 % 60) ++ ':' :: pad2 (1 % 24) } : String) = "00:00:00:01" from
      by decide]
    rfl
  rw [h]
  rw [if_pos (by norm_num [to_frame_ndf_24])]
  rw [show Timecode.to_frame ⟨1, 0, 2, 0, 24, some false⟩ -
      Timecode.to_frame ⟨1, 0, 0, 0, 24, some false⟩ = 48 from by
    rw [to_frame_ndf_24, to_frame_ndf_24]; norm_num]
  rw [show |(((⟨0, 0, 1, 0, 24, some false⟩ : Timecode).to_frame : ℤ) : ℚ) +
      (-50 : ℚ) / 24 * ((48 : ℤ) : ℚ)| = ((76 : ℤ) : ℚ) from by
    norm_num [to_frame_ndf_24]]
  rw [truncQ_intCast]
  rfl

theorem except_bind_ok (x : α) (f : α → Except PyErr β) :
    Except.bind (Except.ok x) f = f x := rfl

theorem except_bind_err (e : PyErr) (f : α → Except PyErr β) :
    Except.bind (Except.error e : Except PyErr α) f = Except.error e := rfl

/-- The rows that `read_cmx_edl` treats as audio-only: a cleaned non-empty
line that reaches the numeric-event branch (no `TITLE:`/`FCM:` prefix, second
token not `BL`, first token a digit string other than `M2`) whose third token
is `AA`. -/
def isAudioRow (raw : String) : Bool :=
  !(cleanLine raw == "") && !(pyStartsWith (cleanLine raw) "TITLE:") &&
  !(pyStartsWith (cleanLine raw) "FCM:") &&
  !((pySplit (cleanLine raw)).get? 1 == some "BL") &&
  (match (pySplit (cleanLine raw)).get? 0 with
   | some t0 => !(t0 == "M2") && pyIsDigitStr t0 &&
       ((pySplit (cleanLine raw)).get? 2 == some "AA")
   | none => false)

theorem processFCM_offset (st : EditListState) (tk : List String)
    (st2 : EditListState) (hok : processFCM st tk = .ok st2) :
    st2.id_offset = st.id_offset ∧ st2._edits = st._edits := by
  unfold processFCM at hok
  simp only [Bind.bind] at hok
  cases hg : pyIndex tk 1 with
  | error e => rw [hg, except_bind_err] at hok; cases hok
  | ok t1 =>
    rw [hg, except_bind_ok] at hok
    split at hok
    · cases hg2 : pyIndex tk 2 with
      | error e => rw [hg2, except_bind_err] at hok; cases hok
      | ok t2 =>
        rw [hg2, except_bind_ok] at hok
        split at hok
        · rw [show (pure true : Except PyErr Bool) = Except.ok true from rfl,
            except_bind_ok] at hok
          cases hok
          split <;> exact ⟨rfl, rfl⟩
        · rw [except_bind_err] at hok; cases hok
    · split at hok
      · cases hg2 : pyIndex tk 2 with
        | error e => rw [hg2, except_bind_err] at hok; cases hok
        | ok t2 =>
          rw [hg2, except_bind_ok] at hok
          split at hok
          · rw [show (pure false : Except PyErr Bool) = Except.ok false from rfl,
              except_bind_ok] at hok
            cases hok
            split <;> exact ⟨rfl, rfl⟩
          · rw [except_bind_err] at hok; cases hok
      · rw [except_bind_err] at hok; cases hok

theorem EditEvent_make_fields (id : ℤ) (reel channels a b c d : String) (fps : ℚ)
    (df : Option Bool) (ev : EditEvent)
    (hok : EditEvent.make id reel channels a b c d fps df = .ok ev) :
    ev._id = id ∧ ev._reel = reel ∧ ev._channels = channels := by
  unfold EditEvent.make at hok
  simp only [Bind.bind] at hok
  cases h1 : Timecode.make a fps df true with
  | error e => rw [h1, except_bind_err] at hok; cases hok
  | ok si =>
    rw [h1, except_bind_ok] at hok
    cases h2 : Timecode.make b fps df true with
    | error e => rw [h2, except_bind_err] at hok; cases hok
    | ok so =>
      rw [h2, except_bind_ok] at hok
      cases h3 : Timecode.make c fps df false with
      | error e => rw [h3, except_bind_err] at hok; cases hok
      | ok ri =>
        rw [h3, except_bind_ok] at hok
        cases h4 : Timecode.make d fps df false with
        | error e => rw [h4, except_bind_err] at hok; cases hok
        | ok ro =>
          rw [h4, except_bind_ok] at hok
          cases hok
          exact ⟨rfl, rfl, rfl⟩

theorem mkCut_shape (fps : ℚ) (st : EditListState) (tk : List String) (id : ℤ)
    (mt : String) (st2 : EditListState) (hok : mkCut fps st tk id mt = .ok st2) :
    ∃ ev : EditEvent, ev._id = id ∧
      st2 = { st with _edits := st._edits ++ [ev] } := by
  unfold mkCut at hok
  simp only [Bind.bind] at hok
  cases h1 : pyIndex tk 1 with
  | error e => rw [h1, except_bind_err] at hok; cases hok
  | ok reel =>
  rw [h1, except_bind_ok] at hok
  cases h2 : pyIndexNeg tk 4 with
  | error e => rw [h2, except_bind_err] at hok; cases hok
  | ok si =>
  rw [h2, except_bind_ok] at hok
  cases h3 : pyIndexNeg tk 3 with
  | error e => rw [h3, except_bind_err] at hok; cases hok
  | ok so =>
  rw [h3, except_bind_ok] at hok
  cases h4 : pyIndexNeg tk 2 with
  | error e => rw [h4, except_bind_err] at hok; cases hok
  | ok ri =>
  rw [h4, except_bind_ok] at hok
  cases h5 : pyIndexNeg tk 1 with
  | error e => rw [h5, except_bind_err] at hok; cases hok
  | ok ro =>
  rw [h5, except_bind_ok] at hok
  cases h6 : EditEvent.make id reel mt si so ri ro fps st._drop_frame with
  | error e => rw [h6, except_bind_err] at hok; cases hok
  | ok ev =>
  rw [h6, except_bind_ok] at hok
  cases hok
  exact ⟨ev, (EditEvent_make_fields _ _ _ _ _ _ _ _ _ _ h6).1, rfl⟩

theorem processDigitRow_offset (fps : ℚ) (st : EditListState) (tk : List String)
    (t0 : String) (st2 : EditListState)
    (hok : processDigitRow fps st tk t0 = .ok st2) :
    st2.id_offset = st.id_offset + (if tk.get? 2 = some "AA" then 1 else 0) := by
  unfold processDigitRow at hok
  simp only [Bind.bind] at hok
  cases h1 : pyIndex tk 2 with
  | error e => rw [h1, except_bind_err] at hok; cases hok
  | ok mt =>
  rw [h1, except_bind_ok] at hok
  cases h2 : pyIndex tk 3 with
  | error e => rw [h2, except_bind_err] at hok; cases hok
  | ok et =>
  rw [h2, except_bind_ok] at hok
  have hget : tk.get? 2 = some mt := by
    unfold pyIndex at h1
    cases hg : tk.get? 2 with
    | none => rw [hg] at h1; cases h1
    | some x => rw [hg] at h1; cases h1; rfl
  split at hok
  · cases hok
    rename_i hmt
    rw [hget, hmt]
    simp
  · rename_i hmt
    rw [hget, if_neg (by simpa using hmt)]
    split at hok
    · split at hok
      · cases hok; rfl
      · split at hok
        · obtain ⟨ev, _, hrw⟩ := mkCut_shape _ _ _ _ _ _ hok
          rw [hrw]; simp
        · split at hok
          · cases hok
          · cases hok; rfl
    · split at hok
      · obtain ⟨ev, _, hrw⟩ := mkCut_shape _ _ _ _ _ _ hok
        rw [hrw]; simp
      · split at hok
        · cases hok
        · cases hok; rfl

theorem processLine_id_offset (fps : ℚ) (st : EditListState) (raw : String)
    (st2 : EditListState) (hok : processLine fps st raw = .ok st2) :
    st2.id_offset = st.id_offset + (if isAudioRow raw then 1 else 0) := by
  unfold processLine at hok
  unfold isAudioRow
  by_cases hE : cleanLine raw = ""
  · rw [if_pos hE] at hok
    cases hok
    simp [hE]
  · rw [if_neg hE] at hok
    by_cases hT : pyStartsWith (cleanLine raw) "TITLE:"
    · rw [if_pos hT] at hok
      cases hok
      simp only [hT, Bool.not_true, Bool.and_false, Bool.false_and, if_false,
        Bool.false_eq_true]
      split <;> simp
    · rw [if_neg hT] at hok
      by_cases hF : pyStartsWith (cleanLine raw) "FCM:"
      · rw [if_pos hF] at hok
        rw [(processFCM_offset _ _ _ hok).1]
        simp [hF]
      · rw [if_neg hF] at hok
        by_cases hBL : (pySplit (cleanLine raw)).get? 1 = some "BL"
        · rw [if_pos hBL] at hok
          cases hok
        · rw [if_neg hBL] at hok
          simp only [Bind.bind] at hok
          cases h0 : (pySplit (cleanLine raw)).get? 0 with
          | none =>
            rw [show pyIndex (pySplit (cleanLine raw)) 0 =
              (Except.error .indexError : Except PyErr String) from by
                unfold pyIndex; rw [h0], except_bind_err] at hok
            cases hok
          | some t0 =>
            rw [show pyIndex (pySplit (cleanLine raw)) 0 =
              (Except.ok t0 : Except PyErr String) from by
                unfold pyIndex; rw [h0], except_bind_ok] at hok
            by_cases hM2 : t0 = "M2"
            · rw [if_pos hM2] at hok
              rw [hM2]
              split at hok
              · cases hok
              · rename_i edit heq
                cases hr : edit.add_retime (pySplit (cleanLine raw)) with
                | error e => rw [hr, except_bind_err] at hok; cases hok
                | ok e2 =>
                  rw [hr, except_bind_ok] at hok
                  cases hok
                  simp
            · rw [if_neg hM2] at hok
              by_cases hDig : pyIsDigitStr t0 = true
              · rw [if_pos hDig] at hok
                rw [processDigitRow_offset _ _ _ _ _ hok]
                by_cases hAA : (pySplit (cleanLine raw)).get? 2 = some "AA"
                all_goals simp only [List.get?_eq_getElem?] at hBL hAA
                all_goals simp [hAA, hE, hT, hF, hBL, hM2, hDig]
              · rw [if_neg hDig] at hok
                split at hok
                · cases hok
                  simp [hDig]
                · cases hok
                  simp [hDig]

theorem parseLines_id_offset (fps : ℚ) (lines : List String) :
    ∀ (st st2 : EditListState), parseLines fps st lines = .ok st2 →
      st2.id_offset = st.id_offset + lines.countP isAudioRow := by
  induction lines with
  | nil =>
    intro st st2 hok
    unfold parseLines at hok
    cases hok
    simp
  | cons l ls ih =>
    intro st st2 hok
    unfold parseLines at hok
    simp only [Bind.bind] at hok
    cases h1 : processLine fps st l with
    | error e => rw [h1, except_bind_err] at hok; cases hok
    | ok stm =>
      rw [h1, except_bind_ok] at hok
      have h2 := ih stm st2 hok
      have h3 := processLine_id_offset fps st l stm h1
      rw [h2, h3, List.countP_cons]
      by_cases hA : isAudioRow l
      · simp only [hA, if_true, decide_eq_true_eq]
        omega
      · simp only [hA, if_false, Bool.false_eq_true, decide_eq_true_eq]
        omega

/-- C8: event-id audio adjustment.  (i) A cleaned numeric row that reaches the
event branch and whose third token is `AA` only increments the running id
offset; (ii) after any successful first pass the id offset has grown by
exactly the number of audio-only rows; (iii) a non-audio `C` row whose id is
not a duplicate of the current edit's appends exactly one event, whose id is
its numeric first token minus the current offset; (iv) end to end, a file
with one `AA` row followed by a video cut row numbered 2 yields a single
event whose id is 1. -/
theorem claim_C8_audio_id_offset :
    (∀ (fps : ℚ) (st : EditListState) (raw : String) (t0 t3 : String),
      cleanLine raw ≠ "" → ¬ pyStartsWith (cleanLine raw) "TITLE:" →
      ¬ pyStartsWith (cleanLine raw) "FCM:" →
      ¬ (pySplit (cleanLine raw)).get? 1 = some "BL" →
      (pySplit (cleanLine raw)).get? 0 = some t0 → ¬ t0 = "M2" →
      pyIsDigitStr t0 = true →
      (pySplit (cleanLine raw)).get? 2 = some "AA" →
      (pySplit (cleanLine raw)).get? 3 = some t3 →
      processLine fps st raw = .ok { st with id_offset := st.id_offset + 1 }) ∧
    (∀ (fps : ℚ) (lines : List String) (st st2 : EditListState),
      parseLines fps st lines = .ok st2 →
      st2.id_offset = st.id_offset + lines.countP isAudioRow) ∧
    (∀ (fps : ℚ) (st : EditListState) (tk : List String) (t0 mt : String)
      (st2 : EditListState), processDigitRow fps st tk t0 = .ok st2 →
      tk.get? 2 = some mt → ¬ mt = "AA" → tk.get? 3 = some "C" →
      (∀ ev, st._edits.getLast? = some ev →
        ¬ ev._id = (strToNat t0 : ℤ) - st.id_offset) →
      ∃ ev : EditEvent, ev._id = (strToNat t0 : ℤ) - st.id_offset ∧
        st2 = { st with _edits := st._edits ++ [ev] }) ∧
    (∃ ev : EditEvent,
      read_cmx_edl
        ["TITLE: TEST",
         "001 AUD AA C 00:00:00:00 00:00:01:00 01:00:00:00 01:00:01:00",
         "002 REEL1 V C 00:00:00:00 00:00:01:00 01:00:00:00 01:00:01:00"] 24 =
        .ok ⟨some "TEST", [ev], false, none, 24⟩ ∧ ev._id = 1) := by
  refine ⟨?_, parseLines_id_offset, ?_, ?_⟩
  · intro fps st raw t0 t3 hE hT hF hBL h0 hM2 hDig hAA h3
    unfold processLine
    rw [if_neg hE, if_neg hT, if_neg hF, if_neg hBL]
    simp only [Bind.bind]
    rw [show pyIndex (pySplit (cleanLine raw)) 0 =
      (Except.ok t0 : Except PyErr String) from by unfold pyIndex; rw [h0],
      except_bind_ok]
    rw [if_neg hM2, if_pos hDig]
    unfold processDigitRow
    simp only [Bind.bind]
    rw [show pyIndex (pySplit (cleanLine raw)) 2 =
      (Except.ok "AA" : Except PyErr String) from by unfold pyIndex; rw [hAA],
      except_bind_ok]
    rw [show pyIndex (pySplit (cleanLine raw)) 3 =
      (Except.ok t3 : Except PyErr String) from by unfold pyIndex; rw [h3],
      except_bind_ok]
    rw [if_pos rfl]
  · intro fps st tk t0 mt st2 hok hmt2 hne hC hnd
    unfold processDigitRow at hok
    simp only [Bind.bind] at hok
    rw [show pyIndex tk 2 = (Except.ok mt : Except PyErr String) from by
      unfold pyIndex; rw [hmt2], except_bind_ok] at hok
    rw [show pyIndex tk 3 = (Except.ok "C" : Except PyErr String) from by
      unfold pyIndex; rw [hC], except_bind_ok] at hok
    rw [if_neg hne] at hok
    split at hok
    · rename_i edit heq
      rw [if_neg (hnd edit heq), if_pos ⟨rfl, hne⟩] at hok
      exact mkCut_shape _ _ _ _ _ _ hok
    · rw [if_pos ⟨rfl, hne⟩] at hok
      exact mkCut_shape _ _ _ _ _ _ hok
  · refine ⟨⟨[], [], [("_drop_frame", .mnone), ("_fps", .mrat 24)], none, 24, none, 1, "REEL1", "V",
      ⟨0, 0, 0, 0, 24, some false⟩, ⟨0, 0, 1, 0, 24, some false⟩,
      ⟨1, 0, 0, 0, 24, some false⟩, ⟨1, 0, 1, 0, 24, some false⟩⟩, ?_, rfl⟩
    rfl

/-- Witness for C8: the audio row of the example file bumps the offset, the
three-line example file counts exactly one audio row, and the cut row
numbered 2 processed at offset 1 appends the event with id 1. -/
theorem claim_C8_audio_id_offset_witness :
    (processLine 24 ⟨none, [], 0, none⟩
        "001 AUD AA C 00:00:00:00 00:00:01:00 01:00:00:00 01:00:01:00" =
      .ok ⟨none, [], 1, none⟩) ∧
    ((⟨some "TEST",
        [⟨[], [], [("_drop_frame", .mnone), ("_fps", .mrat 24)], none, 24, none, 1, "REEL1", "V",
          ⟨0, 0, 0, 0, 24, some false⟩, ⟨0, 0, 1, 0, 24, some false⟩,
          ⟨1, 0, 0, 0, 24, some false⟩, ⟨1, 0, 1, 0, 24, some false⟩⟩],
        1, none⟩ : EditListState).id_offset =
      (⟨none, [], 0, none⟩ : EditListState).id_offset +
        ["TITLE: TEST",
         "001 AUD AA C 00:00:00:00 00:00:01:00 01:00:00:00 01:00:01:00",
         "002 REEL1 V C 00:00:00:00 00:00:01:00 01:00:00:00 01:00:01:00"].countP
          isAudioRow) ∧
    (∃ ev : EditEvent, ev._id = (strToNat "002" : ℤ) - 1 ∧
      (⟨some "TEST",
        [⟨[], [], [("_drop_frame", .mnone), ("_fps", .mrat 24)], none, 24, none, 1, "REEL1", "V",
          ⟨0, 0, 0, 0, 24, some false⟩, ⟨0, 0, 1, 0, 24, some false⟩,
          ⟨1, 0, 0, 0, 24, some false⟩, ⟨1, 0, 1, 0, 24, some false⟩⟩],
        1, none⟩ : EditListState) =
        ⟨some "TEST", [] ++ [ev], 1, none⟩) := by
  obtain ⟨c1, c2, c3, _⟩ := claim_C8_audio_id_offset
  refine ⟨?_, ?_, ?_⟩
  · exact c1 24 ⟨none, [], 0, none⟩
      "001 AUD AA C 00:00:00:00 00:00:01:00 01:00:00:00 01:00:01:00"
      "001" "C" (by decide) (by decide) (by decide) (by decide) rfl (by decide)
      rfl rfl rfl
  · exact c2 24
      ["TITLE: TEST",
       "001 AUD AA C 00:00:00:00 00:00:01:00 01:00:00:00 01:00:01:00",
       "002 REEL1 V C 00:00:00:00 00:00:01:00 01:00:00:00 01:00:01:00"]
      ⟨none, [], 0, none⟩ _ rfl
  · obtain ⟨ev, hid, hst⟩ := c3 24 ⟨some "TEST", [], 1, none⟩
      ["002", "REEL1", "V", "C", "00:00:00:00", "00:00:01:00",
       "01:00:00:00", "01:00:01:00"] "002" "V"
      ⟨some "TEST",
        [⟨[], [], [("_drop_frame", .mnone), ("_fps", .mrat 24)], none, 24, none, 1, "REEL1", "V",
          ⟨0, 0, 0, 0, 24, some false⟩, ⟨0, 0, 1, 0, 24, some false⟩,
          ⟨1, 0, 0, 0, 24, some false⟩, ⟨1, 0, 1, 0, 24, some false⟩⟩],
        1, none⟩ rfl rfl (by decide) rfl (by intro ev h; cases h)
    exact ⟨ev, hid, hst⟩

/-- C4 (counterexample to the previous-event scoping): the second pass applied
to a *single* event (no previous event) whose effect line carries a strict
`D` marker still overwrites that event's source-in/out and record-in/out with
the effect's 6th-9th tokens — the original claim's "only when a previous
event exists" scopes the overwrite as well, which the code contradicts. -/
theorem claim_C4_counterexample :
    fixupLoop (some false) []
      [⟨["002 REEL1 V D 024 00:00:10:00 00:00:12:00 01:00:10:00 01:00:12:00"],
        [], [("_drop_frame", .mbool false), ("_fps", .mrat 24)], none, 24, some false, 2, "REEL1", "V",
        ⟨0, 0, 1, 0, 24, some false⟩, ⟨0, 0, 3, 0, 24, some false⟩,
        ⟨1, 0, 0, 0, 24, some false⟩, ⟨1, 0, 2, 0, 24, some false⟩⟩] false =
      .ok ([⟨["002 REEL1 V D 024 00:00:10:00 00:00:12:00 01:00:10:00 01:00:12:00"],
        [], [("_drop_frame", .mbool false), ("_fps", .mrat 24)], none, 24, some false, 2, "REEL1", "V",
        ⟨0, 0, 10, 0, 24, some false⟩, ⟨0, 0, 12, 0, 24, some false⟩,
        ⟨1, 0, 10, 0, 24, some false⟩, ⟨1, 0, 12, 0, 24, some false⟩⟩], true) ∧
    ((⟨0, 0, 10, 0, 24, some false⟩ : Timecode) ≠ ⟨0, 0, 1, 0, 24, some false⟩) := by
  exact ⟨rfl, by decide⟩

/-- C4 (amended): the second-pass transition fix-up.  Any effect whose 4th
token starts with `D`, `d`, `w` or `W` sets `_has_transitions` and overwrites
the *current* event's source-in/out and record-in/out with Timecodes parsed
from the effect's 6th-9th tokens — with or without a previous event, and for
wipes as well as dissolves; only the extension of the *previous* event's
source-out/record-out by the transition duration (5th token) is limited to a
strict `D` marker with a previous event present.  Effects whose 4th token
matches neither prefix leave everything unchanged. -/
theorem claim_C4_transition_fixup (listDrop : Option Bool)
    (prev : Option EditEvent) (edit : EditEvent) (eff : String) (ht : Bool)
    (toks : List String) (t3 : String) (hsplit : pySplit eff = toks)
    (ht3 : toks.get? 3 = some t3) :
    (dwMatch t3 = false →
      fixupEffect listDrop prev edit eff ht = .ok (prev, edit, ht)) ∧
    (dwMatch t3 = true → prev = none →
      ∀ t5 t6 t7 t8 nsi nso nri nro,
        toks.get? 5 = some t5 → toks.get? 6 = some t6 →
        toks.get? 7 = some t7 → toks.get? 8 = some t8 →
        Timecode.make t5 edit._fps listDrop false = .ok nsi →
        Timecode.make t6 edit._fps listDrop false = .ok nso →
        Timecode.make t7 edit._fps listDrop false = .ok nri →
        Timecode.make t8 edit._fps listDrop false = .ok nro →
        fixupEffect listDrop prev edit eff ht =
          .ok (none, { edit with
            _source_in := nsi
            _source_out := nso
            _record_in := nri
            _record_out := nro }, true)) ∧
    (dwMatch t3 = true → ∀ p, prev = some p → ¬ t3 = "D" →
      ∀ t5 t6 t7 t8 nsi nso nri nro,
        toks.get? 5 = some t5 → toks.get? 6 = some t6 →
        toks.get? 7 = some t7 → toks.get? 8 = some t8 →
        Timecode.make t5 edit._fps listDrop false = .ok nsi →
        Timecode.make t6 edit._fps listDrop false = .ok nso →
        Timecode.make t7 edit._fps listDrop false = .ok nri →
        Timecode.make t8 edit._fps listDrop false = .ok nro →
        fixupEffect listDrop prev edit eff ht =
          .ok (some p, { edit with
            _source_in := nsi
            _source_out := nso
            _record_in := nri
            _record_out := nro }, true)) ∧
    (dwMatch t3 = true → ∀ p, prev = some p → t3 = "D" →
      ∀ t4 td pso pro,
        toks.get? 4 = some t4 →
        Timecode.make t4 edit._fps listDrop false = .ok td →
        Timecode.make ⟨intStr (p._source_out.to_frame + td.to_frame)⟩ p._fps
          listDrop true = .ok pso →
        Timecode.make ⟨intStr (p._record_out.to_frame + td.to_frame)⟩ p._fps
          listDrop false = .ok pro →
      ∀ t5 t6 t7 t8 nsi nso nri nro,
        toks.get? 5 = some t5 → toks.get? 6 = some t6 →
        toks.get? 7 = some t7 → toks.get? 8 = some t8 →
        Timecode.make t5 edit._fps listDrop false = .ok nsi →
        Timecode.make t6 edit._fps listDrop false = .ok nso →
        Timecode.make t7 edit._fps listDrop false = .ok nri →
        Timecode.make t8 edit._fps listDrop false = .ok nro →
        fixupEffect listDrop prev edit eff ht =
          .ok (some { p with _source_out := pso, _record_out := pro },
            { edit with
              _source_in := nsi
              _source_out := nso
              _record_in := nri
              _record_out := nro }, true)) := by
  refine ⟨?_, ?_, ?_, ?_⟩
  · intro hdw
    unfold fixupEffect
    rw [hsplit]
    simp only [Bind.bind]
    rw [show pyIndex toks 3 = (Except.ok t3 : Except PyErr String) from by
      unfold pyIndex; rw [ht3], except_bind_ok]
    rw [hdw]
    simp
  · intro hdw hpe t5 t6 t7 t8 nsi nso nri nro g5 g6 g7 g8 m5 m6 m7 m8
    subst hpe
    unfold fixupEffect
    rw [hsplit]
    simp only [Bind.bind]
    rw [show pyIndex toks 3 = (Except.ok t3 : Except PyErr String) from by
      unfold pyIndex; rw [ht3], except_bind_ok]
    rw [hdw]
    simp only [if_true]
    rw [show (pure (none : Option EditEvent) : Except PyErr (Option EditEvent)) =
      Except.ok none from rfl, except_bind_ok]
    rw [show pyIndex toks 5 = (Except.ok t5 : Except PyErr String) from by
      unfold pyIndex; rw [g5], except_bind_ok]
    rw [show pyIndex toks 6 = (Except.ok t6 : Except PyErr String) from by
      unfold pyIndex; rw [g6], except_bind_ok]
    rw [show pyIndex toks 7 = (Except.ok t7 : Except PyErr String) from by
      unfold pyIndex; rw [g7], except_bind_ok]
    rw [show pyIndex toks 8 = (Except.ok t8 : Except PyErr String) from by
      unfold pyIndex; rw [g8], except_bind_ok]
    rw [m5, except_bind_ok, m6, except_bind_ok, m7, except_bind_ok,
      m8, except_bind_ok]
  · intro hdw p hpe hnd t5 t6 t7 t8 nsi nso nri nro g5 g6 g7 g8 m5 m6 m7 m8
    subst hpe
    unfold fixupEffect
    rw [hsplit]
    simp only [Bind.bind]
    rw [show pyIndex toks 3 = (Except.ok t3 : Except PyErr String) from by
      unfold pyIndex; rw [ht3], except_bind_ok]
    rw [hdw]
    simp only [if_true]
    rw [if_neg hnd]
    rw [show (pure (some p : Option EditEvent) : Except PyErr (Option EditEvent)) =
      Except.ok (some p) from rfl, except_bind_ok]
    rw [show pyIndex toks 5 = (Except.ok t5 : Except PyErr String) from by
      unfold pyIndex; rw [g5], except_bind_ok]
    rw [show pyIndex toks 6 = (Except.ok t6 : Except PyErr String) from by
      unfold pyIndex; rw [g6], except_bind_ok]
    rw [show pyIndex toks 7 = (Except.ok t7 : Except PyErr String) from by
      unfold pyIndex; rw [g7], except_bind_ok]
    rw [show pyIndex toks 8 = (Except.ok t8 : Except PyErr String) from by
      unfold pyIndex; rw [g8], except_bind_ok]
    rw [m5, except_bind_ok, m6, except_bind_ok, m7, except_bind_ok,
      m8, except_bind_ok]
  · intro hdw p hpe hd t4 td pso pro g4 m4 mso mro
      t5 t6 t7 t8 nsi nso nri nro g5 g6 g7 g8 m5 m6 m7 m8
    subst hpe
    subst hd
    unfold fixupEffect
    rw [hsplit]
    simp only [Bind.bind]
    rw [show pyIndex toks 3 = (Except.ok "D" : Except PyErr String) from by
      unfold pyIndex; rw [ht3], except_bind_ok]
    rw [hdw]
    simp only [if_true, if_pos rfl]
    rw [show pyIndex toks 4 = (Except.ok t4 : Except PyErr String) from by
      unfold pyIndex; rw [g4], except_bind_ok]
    rw [m4, except_bind_ok, mso, except_bind_ok, mro, except_bind_ok]
    rw [show (pure (some { p with _source_out := pso, _record_out := pro } :
        Option EditEvent) : Except PyErr (Option EditEvent)) =
      Except.ok (some { p with _source_out := pso, _record_out := pro })
      from rfl, except_bind_ok]
    rw [show pyIndex toks 5 = (Except.ok t5 : Except PyErr String) from by
      unfold pyIndex; rw [g5], except_bind_ok]
    rw [show pyIndex toks 6 = (Except.ok t6 : Except PyErr String) from by
      unfold pyIndex; rw [g6], except_bind_ok]
    rw [show pyIndex toks 7 = (Except.ok t7 : Except PyErr String) from by
      unfold pyIndex; rw [g7], except_bind_ok]
    rw [show pyIndex toks 8 = (Except.ok t8 : Except PyErr String) from by
      unfold pyIndex; rw [g8], except_bind_ok]
    rw [m5, except_bind_ok, m6, except_bind_ok, m7, except_bind_ok,
      m8, except_bind_ok]

/-- Witness for C4: the amended theorem applied with *no previous event* to a
strict-`D` dissolve effect still overwrites the current event's four
timecodes from the effect tokens and sets the transitions flag. -/
theorem claim_C4_transition_fixup_witness :
    fixupEffect (some false) none
      ⟨["002 REEL1 V D 024 00:00:10:00 00:00:12:00 01:00:10:00 01:00:12:00"],
       [], [("_drop_frame", .mbool false), ("_fps", .mrat 24)], none, 24, some false, 2, "REEL1", "V",
       ⟨0, 0, 1, 0, 24, some false⟩, ⟨0, 0, 3, 0, 24, some false⟩,
       ⟨1, 0, 0, 0, 24, some false⟩, ⟨1, 0, 2, 0, 24, some false⟩⟩
      "002 REEL1 V D 024 00:00:10:00 00:00:12:00 01:00:10:00 01:00:12:00"
      false =
    .ok (none,
      ⟨["002 REEL1 V D 024 00:00:10:00 00:00:12:00 01:00:10:00 01:00:12:00"],
       [], [("_drop_frame", .mbool false), ("_fps", .mrat 24)], none, 24, some false, 2, "REEL1", "V",
       ⟨0, 0, 10, 0, 24, some false⟩, ⟨0, 0, 12, 0, 24, some false⟩,
       ⟨1, 0, 10, 0, 24, some false⟩, ⟨1, 0, 12, 0, 24, some false⟩⟩, true) := by
  exact (claim_C4_transition_fixup (some false) none
    ⟨["002 REEL1 V D 024 00:00:10:00 00:00:12:00 01:00:10:00 01:00:12:00"],
     [], [("_drop_frame", .mbool false), ("_fps", .mrat 24)], none, 24, some false, 2, "REEL1", "V",
     ⟨0, 0, 1, 0, 24, some false⟩, ⟨0, 0, 3, 0, 24, some false⟩,
     ⟨1, 0, 0, 0, 24, some false⟩, ⟨1, 0, 2, 0, 24, some false⟩⟩
    "002 REEL1 V D 024 00:00:10:00 00:00:12:00 01:00:10:00 01:00:12:00"
    false
    ["002", "REEL1", "V", "D", "024", "00:00:10:00", "00:00:12:00",
     "01:00:10:00", "01:00:12:00"] "D" rfl rfl).2.1 rfl rfl
    "00:00:10:00" "00:00:12:00" "01:00:10:00" "01:00:12:00"
    ⟨0, 0, 10, 0, 24, some false⟩ ⟨0, 0, 12, 0, 24, some false⟩
    ⟨1, 0, 10, 0, 24, some false⟩ ⟨1, 0, 12, 0, 24, some false⟩
    rfl rfl rfl rfl rfl rfl rfl rfl

end EDL
